import Mathlib

/-!
Verification of the TweeterDataCollector repository: a shallow embedding of
`tweet.py` (the model layer: `TweetUser`, `Hashtag`, `Url`, `UserMention`,
`Symbol`, `Entities`, `Tweet` and their `deserializer` static methods) and of
`data_getter.py` (`verify_authentication`, `collect_tweets`, `pretty_print`,
`get_quote`, `tweets_to_df`), together with theorems settling the frozen
claims about the natural-language specification.

JSON payloads are modelled as a `Json` inductive; Python dictionaries are
association lists with first-occurrence lookup and in-place-replacing insert
(mirroring `data[k]`, `data.get(k, None)`, `k in data` and `data[k] = v`).
Python `KeyError` on a missing dictionary key is modelled as
`DeserErr.missingField`; a `TypeError`-like failure (indexing or iterating a
non-dictionary / non-list value) as `DeserErr.typeMismatch`.  Since Python
dataclass type annotations are not enforced at runtime, the embedded entity
structures store raw `Json` values for plain fields, exactly as the source
stores whatever value the payload carried.
-/

inductive Json where
  | null : Json
  | bool (b : Bool) : Json
  | num (n : Int) : Json
  | str (s : String) : Json
  | arr (elems : List Json) : Json
  | obj (fields : List (String × Json)) : Json

/-- Lookup of a key in a Python dictionary modelled as an association list
(first occurrence wins; a Python dict has unique keys). Models `data[k]`
returning the value, with absence reported by `none`. -/
def lookupKey : List (String × Json) → String → Option Json
  | [], _ => none
  | (k, v) :: rest, key => if k = key then some v else lookupKey rest key

/-- Python dictionary assignment `data[k] = v`: replaces the binding of an
existing key in place, otherwise appends the new binding. -/
def insertKey : List (String × Json) → String → Json → List (String × Json)
  | [], key, v => [(key, v)]
  | (k, w) :: rest, key, v =>
    if k = key then (key, v) :: rest else (k, w) :: insertKey rest key v

/-- Python truthiness of a JSON-compatible value (`None`, `bool`, `int`,
`str`, `list`, `dict`): used by `if data['truncated']`, `if tweet.retweeted_status`,
`True if ... else ...` and friends. -/
def Json.truthy : Json → Bool
  | .null => false
  | .bool b => b
  | .num n => n != 0
  | .str s => s != ""
  | .arr [] => false
  | .arr (_ :: _) => true
  | .obj [] => false
  | .obj (_ :: _) => true

def Json.isStr : Json → Bool
  | .str _ => true
  | _ => false

def Json.isObj : Json → Bool
  | .obj _ => true
  | _ => false

def Json.isArr : Json → Bool
  | .arr _ => true
  | _ => false

/-- Lookup of a key on a `Json` value known to be a dictionary; `none` for a
non-dictionary value. Used in theorem statements. -/
def Json.getKey : Json → String → Option Json
  | .obj kvs, k => lookupKey kvs k
  | _, _ => none

inductive DeserErr where
  | missingField (key : String) : DeserErr
  | typeMismatch : DeserErr

/-- Python `data[k]` on a dictionary: `KeyError` (modelled as
`DeserErr.missingField k`) when the key is absent. -/
def getK (kvs : List (String × Json)) (k : String) : Except DeserErr Json :=
  match lookupKey kvs k with
  | some v => .ok v
  | none => .error (.missingField k)

/-- Python `j[k]` on an arbitrary value: `TypeError` when `j` is not a
dictionary, `KeyError` when the key is absent. -/
def getReq (j : Json) (k : String) : Except DeserErr Json :=
  match j with
  | .obj kvs => getK kvs k
  | _ => .error .typeMismatch

/-- Elements of a JSON array; models both Python `tuple(x)` and iterating
`for y in x` in a list comprehension, which raise `TypeError` on a
non-sequence value. -/
def asElems : Json → Except DeserErr (List Json)
  | .arr xs => .ok xs
  | _ => .error .typeMismatch

/-! ## Model layer: `tweet.py` -/

/-- Embedding of the `TweetUser` dataclass. Plain fields hold the raw JSON
values assigned by `TweetUser.deserializer` (Python does not enforce the
annotations). The Python field `protected` is a Lean keyword, hence the
trailing underscore. -/
structure TweetUser where
  id : Json
  name : Json
  screen_name : Json
  location : Json
  url : Json
  description : Json
  protected_ : Json
  verified : Json
  followers_count : Json
  friends_count : Json
  listed_count : Json
  favourites_count : Json
  statuses_count : Json
  created_at : Json
  profile_banner_url : Json
  profile_image_url_https : Json
  default_profile : Json
  default_profile_image : Json
  withheld_in_countries : Json

/-- Embedding of `TweetUser.deserializer` (tweet.py lines 71-93): one
required `data[...]` read per field, in the source's keyword-argument order,
except `profile_banner_url` which uses `data.get('profile_banner_url', None)`. -/
def TweetUser.deserializer (j : Json) : Except DeserErr TweetUser :=
  match j with
  | .obj kvs => do
    let idv ← getK kvs "id"
    let name ← getK kvs "name"
    let screen_name ← getK kvs "screen_name"
    let location ← getK kvs "location"
    let url ← getK kvs "url"
    let description ← getK kvs "description"
    let protected_ ← getK kvs "protected"
    let verified ← getK kvs "verified"
    let followers_count ← getK kvs "followers_count"
    let friends_count ← getK kvs "friends_count"
    let listed_count ← getK kvs "listed_count"
    let favourites_count ← getK kvs "favourites_count"
    let statuses_count ← getK kvs "statuses_count"
    let created_at ← getK kvs "created_at"
    let profile_banner_url := (lookupKey kvs "profile_banner_url").getD Json.null
    let profile_image_url_https ← getK kvs "profile_image_url_https"
    let default_profile ← getK kvs "default_profile"
    let default_profile_image ← getK kvs "default_profile_image"
    let withheld_in_countries ← getK kvs "withheld_in_countries"
    pure { id := idv, name, screen_name, location, url, description, protected_,
           verified, followers_count, friends_count, listed_count,
           favourites_count, statuses_count, created_at, profile_banner_url,
           profile_image_url_https, default_profile, default_profile_image,
           withheld_in_countries }
  | _ => .error .typeMismatch

structure Hashtag where
  indices : List Json
  text : Json

/-- Embedding of `Hashtag.deserializer`: `indices=tuple(data['indices'])`,
`text=data['text']`. -/
def Hashtag.deserializer (j : Json) : Except DeserErr Hashtag :=
  match j with
  | .obj kvs => do
    let idx ← getK kvs "indices"
    let indices ← asElems idx
    let text ← getK kvs "text"
    pure { indices, text }
  | _ => .error .typeMismatch

structure Url where
  display_url : Json
  expanded_url : Json
  indices : List Json
  url : Json

/-- Embedding of `Url.deserializer`. -/
def Url.deserializer (j : Json) : Except DeserErr Url :=
  match j with
  | .obj kvs => do
    let display_url ← getK kvs "display_url"
    let expanded_url ← getK kvs "expanded_url"
    let idx ← getK kvs "indices"
    let indices ← asElems idx
    let url ← getK kvs "url"
    pure { display_url, expanded_url, indices, url }
  | _ => .error .typeMismatch

structure UserMention where
  id : Json
  indices : List Json
  name : Json
  screen_name : Json

/-- Embedding of `UserMention.deserializer`. -/
def UserMention.deserializer (j : Json) : Except DeserErr UserMention :=
  match j with
  | .obj kvs => do
    let idv ← getK kvs "id"
    let idx ← getK kvs "indices"
    let indices ← asElems idx
    let name ← getK kvs "name"
    let screen_name ← getK kvs "screen_name"
    pure { id := idv, indices, name, screen_name }
  | _ => .error .typeMismatch

structure TweetSymbol where
  indices : List Json
  text : Json

/-- Embedding of `Symbol.deserializer` (named `TweetSymbol` here because
`Symbol` already exists in Mathlib). -/
def TweetSymbol.deserializer (j : Json) : Except DeserErr TweetSymbol :=
  match j with
  | .obj kvs => do
    let idx ← getK kvs "indices"
    let indices ← asElems idx
    let text ← getK kvs "text"
    pure { indices, text }
  | _ => .error .typeMismatch

structure Entities where
  hashtags : List Hashtag
  urls : List Url
  user_mentions : List UserMention
  symbols : List TweetSymbol

/-- Embedding of `Entities.deserializer`: four list comprehensions, each over
a required key of the payload, in source order. -/
def Entities.deserializer (j : Json) : Except DeserErr Entities :=
  match j with
  | .obj kvs => do
    let hj ← getK kvs "hashtags"
    let hl ← asElems hj
    let hashtags ← hl.mapM Hashtag.deserializer
    let uj ← getK kvs "urls"
    let ul ← asElems uj
    let urls ← ul.mapM Url.deserializer
    let mj ← getK kvs "user_mentions"
    let ml ← asElems mj
    let user_mentions ← ml.mapM UserMention.deserializer
    let sj ← getK kvs "symbols"
    let sl ← asElems sj
    let symbols ← sl.mapM TweetSymbol.deserializer
    pure { hashtags, urls, user_mentions, symbols }
  | _ => .error .typeMismatch

/-- Embedding of the non-self-referential fields of the `Tweet` dataclass;
`Tweet` itself wraps this with the two optional self-referential fields
(Lean structures cannot be recursive, so the recursive fields live on the
`Tweet` inductive below). -/
structure TweetData where
  created_at : Json
  id : Json
  full_text : Json
  source : Json
  in_reply_to_status_id : Json
  in_reply_to_user_id : Json
  in_reply_to_screen_name : Json
  user : TweetUser
  coordinates : Json
  place : Json
  is_quote_status : Json
  quoted_status_id : Json
  retweet_count : Json
  favorite_count : Json
  entities : Entities
  favorited : Json
  retweeted : Json
  possibly_sensitive : Json
  lang : Json

/-- Embedding of the `Tweet` dataclass: the plain fields bundled in
`TweetData` plus the two optional self-referential fields `quoted_status`
and `retweeted_status`. -/
inductive Tweet where
  | mk (data : TweetData) (quoted_status : Option Tweet)
       (retweeted_status : Option Tweet) : Tweet

def Tweet.data : Tweet → TweetData
  | .mk d _ _ => d

def Tweet.quoted_status : Tweet → Option Tweet
  | .mk _ q _ => q

def Tweet.retweeted_status : Tweet → Option Tweet
  | .mk _ _ r => r

def Tweet.created_at (t : Tweet) : Json := t.data.created_at
def Tweet.id (t : Tweet) : Json := t.data.id
def Tweet.full_text (t : Tweet) : Json := t.data.full_text
def Tweet.source (t : Tweet) : Json := t.data.source
def Tweet.in_reply_to_status_id (t : Tweet) : Json := t.data.in_reply_to_status_id
def Tweet.in_reply_to_user_id (t : Tweet) : Json := t.data.in_reply_to_user_id
def Tweet.in_reply_to_screen_name (t : Tweet) : Json := t.data.in_reply_to_screen_name
def Tweet.user (t : Tweet) : TweetUser := t.data.user
def Tweet.coordinates (t : Tweet) : Json := t.data.coordinates
def Tweet.place (t : Tweet) : Json := t.data.place
def Tweet.is_quote_status (t : Tweet) : Json := t.data.is_quote_status
def Tweet.quoted_status_id (t : Tweet) : Json := t.data.quoted_status_id
def Tweet.retweet_count (t : Tweet) : Json := t.data.retweet_count
def Tweet.favorite_count (t : Tweet) : Json := t.data.favorite_count
def Tweet.entities (t : Tweet) : Entities := t.data.entities
def Tweet.favorited (t : Tweet) : Json := t.data.favorited
def Tweet.retweeted (t : Tweet) : Json := t.data.retweeted
def Tweet.possibly_sensitive (t : Tweet) : Json := t.data.possibly_sensitive
def Tweet.lang (t : Tweet) : Json := t.data.lang

/-- Value that `data['full_text']` holds right after the resolution block at
the top of `Tweet.deserializer` (tweet.py lines 333-339), or the error the
block raises: if the key exists its value is kept; else if
`data['truncated']` is truthy (a missing `truncated` key is a `KeyError`)
and `extended_tweet` is present, `data['extended_tweet']['full_text']`; else
if `retweeted_status` is present and has an `extended_tweet` key,
`data['retweeted_status']['extended_tweet']['full_text']`; else
`data['text']`. -/
def fullTextResolve (kvs : List (String × Json)) : Except DeserErr Json :=
  match lookupKey kvs "full_text" with
  | some v => .ok v
  | none =>
    match lookupKey kvs "truncated" with
    | none => .error (.missingField "truncated")
    | some tv =>
      match (if tv.truthy then lookupKey kvs "extended_tweet" else none) with
      | some et => getReq et "full_text"
      | none =>
        match lookupKey kvs "retweeted_status" with
        | none => getK kvs "text"
        | some rs =>
          match rs with
          | .obj rkvs =>
            match lookupKey rkvs "extended_tweet" with
            | some et2 => getReq et2 "full_text"
            | none => getK kvs "text"
          | _ => .error .typeMismatch

/-- Termination helper: a value looked up in an association list is smaller
than the list (and hence than the dictionary built from it). -/
theorem sizeOf_lookupKey_lt (kvs : List (String × Json)) (k : String) :
    sizeOf (lookupKey kvs k) < 1 + sizeOf kvs := by
  induction kvs with
  | nil => simp [lookupKey]
  | cons p rest ih =>
    obtain ⟨a, b⟩ := p
    simp only [lookupKey]
    split
    · simp
      omega
    · simp at ih ⊢
      omega

/-- Final state of the input dictionary when `Tweet.deserializer` returns:
the resolution block inserted `full_text` if (and only if) it was absent,
and the nested `quoted_status` / `retweeted_status` dictionaries were
mutated in place by the recursive calls, so the parent dictionary now holds
their post-deserialization states. -/
def mutKvs (kvs : List (String × Json)) (ftv : Json)
    (qres rres : Option (Json × Tweet)) : List (String × Json) :=
  let kvs1 := if (lookupKey kvs "full_text").isSome then kvs
              else insertKey kvs "full_text" ftv
  let kvs2 := match qres with
    | some (dq, _) => insertKey kvs1 "quoted_status" dq
    | none => kvs1
  match rres with
  | some (dr, _) => insertKey kvs2 "retweeted_status" dr
  | none => kvs2

/-- The plain fields of a post payload read before the `quoted_status`
recursion: the resolution block's `full_text` first, then the keyword
arguments of the `Tweet(...)` call from `created_at` up to
`quoted_status_id`, in the source's left-to-right evaluation order
(`quoted_status_id` uses `data.get('quoted_status_id', None)`). -/
structure TweetFieldsA where
  full_text : Json
  created_at : Json
  id : Json
  source : Json
  in_reply_to_status_id : Json
  in_reply_to_user_id : Json
  in_reply_to_screen_name : Json
  user : TweetUser
  coordinates : Json
  place : Json
  is_quote_status : Json
  quoted_status_id : Json

/-- The plain fields of a post payload read between the `quoted_status` and
`retweeted_status` recursions: `retweet_count` up to `lang`
(`possibly_sensitive` uses `data.get('possibly_sensitive', None)`). -/
structure TweetFieldsB where
  retweet_count : Json
  favorite_count : Json
  entities : Entities
  favorited : Json
  retweeted : Json
  possibly_sensitive : Json
  lang : Json

/-- First non-recursive chunk of `Tweet.deserializer` (tweet.py lines
333-354 up to the `quoted_status` argument), in source evaluation order. -/
def Tweet.deserializerA (kvs : List (String × Json)) :
    Except DeserErr TweetFieldsA := do
  let full_text ← fullTextResolve kvs
  let created_at ← getK kvs "created_at"
  let idv ← getK kvs "id"
  let source ← getK kvs "source"
  let in_reply_to_status_id ← getK kvs "in_reply_to_status_id"
  let in_reply_to_user_id ← getK kvs "in_reply_to_user_id"
  let in_reply_to_screen_name ← getK kvs "in_reply_to_screen_name"
  let userJson ← getK kvs "user"
  let user ← TweetUser.deserializer userJson
  let coordinates ← getK kvs "coordinates"
  let place ← getK kvs "place"
  let is_quote_status ← getK kvs "is_quote_status"
  let quoted_status_id := (lookupKey kvs "quoted_status_id").getD Json.null
  pure { full_text, created_at, id := idv, source, in_reply_to_status_id,
         in_reply_to_user_id, in_reply_to_screen_name, user, coordinates,
         place, is_quote_status, quoted_status_id }

/-- Second non-recursive chunk of `Tweet.deserializer` (tweet.py lines
355-361, the arguments between `quoted_status` and `retweeted_status`), in
source evaluation order. -/
def Tweet.deserializerB (kvs : List (String × Json)) :
    Except DeserErr TweetFieldsB := do
  let retweet_count ← getK kvs "retweet_count"
  let favorite_count ← getK kvs "favorite_count"
  let entitiesJson ← getK kvs "entities"
  let entities ← Entities.deserializer entitiesJson
  let favorited ← getK kvs "favorited"
  let retweeted ← getK kvs "retweeted"
  let possibly_sensitive := (lookupKey kvs "possibly_sensitive").getD Json.null
  let lang ← getK kvs "lang"
  pure { retweet_count, favorite_count, entities, favorited, retweeted,
         possibly_sensitive, lang }

/-- The `TweetData` assembled from the two chunks. -/
def mkTweetData (a : TweetFieldsA) (b : TweetFieldsB) : TweetData :=
  { created_at := a.created_at, id := a.id, full_text := a.full_text,
    source := a.source, in_reply_to_status_id := a.in_reply_to_status_id,
    in_reply_to_user_id := a.in_reply_to_user_id,
    in_reply_to_screen_name := a.in_reply_to_screen_name, user := a.user,
    coordinates := a.coordinates, place := a.place,
    is_quote_status := a.is_quote_status,
    quoted_status_id := a.quoted_status_id,
    retweet_count := b.retweet_count, favorite_count := b.favorite_count,
    entities := b.entities, favorited := b.favorited,
    retweeted := b.retweeted, possibly_sensitive := b.possibly_sensitive,
    lang := b.lang }

mutual

/-- Embedding of `Tweet.deserializer` (tweet.py lines 332-363). The Python
method mutates its input dictionary (the `data['full_text'] = ...`
assignment of the resolution block, at this and every nested level), so the
embedding returns both the final state of the input dictionary and the
constructed `Tweet`. The evaluation order is the source's: the resolution
block and the plain fields up to `quoted_status_id` (`Tweet.deserializerA`),
the recursion into `quoted_status` when that key is present, the plain
fields up to `lang` (`Tweet.deserializerB`), and the recursion into
`retweeted_status` when that key is present. -/
def Tweet.deserializer : Json → Except DeserErr (Json × Tweet)
  | .obj kvs => do
    let a ← Tweet.deserializerA kvs
    let qres ← Tweet.deserializerOpt (lookupKey kvs "quoted_status")
    let b ← Tweet.deserializerB kvs
    let rres ← Tweet.deserializerOpt (lookupKey kvs "retweeted_status")
    pure (Json.obj (mutKvs kvs a.full_text qres rres),
      Tweet.mk (mkTweetData a b) (qres.map Prod.snd) (rres.map Prod.snd))
  | _ => .error .typeMismatch
termination_by d => (sizeOf d, 1)
decreasing_by
  all_goals
    refine Prod.Lex.left _ _ ?_
    simp only [Json.obj.sizeOf_spec]
    exact sizeOf_lookupKey_lt _ _

/-- Recursive step of `Tweet.deserializer` for an optional self-referential
key: `Tweet.deserializer(data[k]) if k in data else None`. -/
def Tweet.deserializerOpt : Option Json → Except DeserErr (Option (Json × Tweet))
  | none => pure none
  | some v => do
    let r ← Tweet.deserializer v
    pure (some r)
termination_by o => (sizeOf o, 0)
decreasing_by
  all_goals
    refine Prod.Lex.left _ _ ?_
    simp

end

/-! ## Collector: `data_getter.py` -/

/-- Embedding of `DataGetter.verify_authentication` (data_getter.py lines
66-75). The external `self.api.verify_credentials()` call is modelled by its
outcome: either a raised exception (`Except.error`, the bare `except:`
clause catches everything) or a returned identity record whose Python
truthiness decides `True if ... else False`. -/
def verify_authentication (credResult : Except String Json) : Bool :=
  match credResult with
  | .ok v => if v.truthy then true else false
  | .error _ => false

/-- Embedding of `tweepy.Status` as far as `collect_tweets` observes it: only
the `id` attribute of returned items is read. -/
structure Status where
  id : Int

/-- One invocation of the paginated fetch method: the `count` keyword passed
and the `max_id` keyword (absent on the first call, modelled as `none`). -/
structure FetchCall where
  count : Int
  max_id : Option Int

/-- Value of `DataGetter.MAX_COUNT`. -/
def MAX_COUNT : Int := 200

/-- The id of the last element of a page, `new_tweets[-1].id`: `lastId p ps`
is the id of the last element of `p :: ps`. -/
def lastId : Status → List Status → Int
  | p, [] => p.id
  | _, q :: qs => lastId q qs

/-- Embedding of the `while cnt:` loop of `DataGetter.collect_tweets`
(data_getter.py lines 92-118), returning the trace of fetch calls it makes
together with the page each call returned. The external `method` is
modelled as a function of the `count` and `max_id` keywords it receives.
`cnt` is an `int` and the loop guard is its Python truthiness (`cnt ≠ 0`);
each call requests `min(MAX_COUNT, cnt)` items, a call after the first
passes `oldest_id - 1` as `max_id`, an empty page breaks out of the loop,
and otherwise `oldest_id` becomes the id of the page's last item and `cnt`
drops by the page length. The Python loop need not terminate (e.g. if the
method keeps over-delivering), so the embedding is fuel-indexed; out of
fuel it stops with the trace so far. -/
def collectAux (method : Int → Option Int → List Status) :
    Nat → Int → Option Int → List (FetchCall × List Status)
  | 0, _, _ => []
  | fuel + 1, cnt, oldest =>
    if cnt = 0 then []
    else
      match method (min MAX_COUNT cnt) (oldest.map (fun x => x - 1)) with
      | [] => [(⟨min MAX_COUNT cnt, oldest.map (fun x => x - 1)⟩, [])]
      | p :: ps =>
        (⟨min MAX_COUNT cnt, oldest.map (fun x => x - 1)⟩, p :: ps) ::
          collectAux method fuel (cnt - (p :: ps).length) (some (lastId p ps))

/-- Embedding of `DataGetter.collect_tweets`: the result list is the
concatenation of the pages fetched by the loop (`result.extend(new_tweets)`). -/
def collect_tweets (method : Int → Option Int → List Status) (count : Int)
    (fuel : Nat) : List Status :=
  ((collectAux method fuel count none).map Prod.snd).flatten

/-- Python `str()` of a JSON-compatible value, as interpolated by the
f-strings of `pretty_print`. The list/dict cases are abbreviated
placeholders: no claim renders a non-scalar value, every field interpolated
by `pretty_print` is a string in a schema-conforming payload. -/
def jstr : Json → String
  | .null => "None"
  | .bool true => "True"
  | .bool false => "False"
  | .num n => toString n
  | .str s => s
  | .arr _ => "<list>"
  | .obj _ => "<dict>"

/-- Embedding of `pretty_print` (data_getter.py lines 173-181): four
branches selected by the Python truthiness of `tweet.retweeted_status` and
the nested quote fields — a retweet without a quoted original, a retweet of
a quote, a quoted tweet, and a plain tweet. -/
def pretty_print (tweet : Tweet) : String :=
  match tweet.retweeted_status with
  | some rt =>
    match rt.quoted_status with
    | none =>
      "A new retweet\nsender: " ++ jstr tweet.user.screen_name ++
      "\nretweet from: " ++ jstr rt.user.screen_name ++
      "\ntext: " ++ jstr rt.full_text
    | some q =>
      "A new retweet\nsender: " ++ jstr tweet.user.screen_name ++
      "\nretweet from: " ++ jstr rt.user.screen_name ++
      "\nquoted from: " ++ jstr q.user.screen_name ++
      "\ntext: " ++ jstr rt.full_text ++
      "\norigin text: " ++ jstr q.full_text
  | none =>
    match tweet.quoted_status with
    | some q =>
      "A new quoted tweet\nsender: " ++ jstr tweet.user.screen_name ++
      "\nquoted from: " ++ jstr q.user.screen_name ++
      "\nquote text: " ++ jstr tweet.full_text ++
      "\norigin text: " ++ jstr q.full_text
    | none =>
      "A new tweet\nsender: " ++ jstr tweet.user.screen_name ++
      "\ntext: " ++ jstr tweet.full_text

/-- Embedding of `get_quote` (data_getter.py lines 184-193): recurse into a
truthy `retweeted_status`, then report the quoted tweet's sender
`screen_name` and `full_text`, or `(None, None)` when there is no quoted
tweet. -/
def get_quote : Tweet → Option Json × Option Json
  | .mk _ _ (some rt) => get_quote rt
  | .mk _ (some q) none => (some q.user.screen_name, some q.full_text)
  | .mk _ none none => (none, none)

/-- One row of the data frame built by `tweets_to_df` (data_getter.py lines
196-221), cells as the Python values they hold (`None` cells are
`Json.null`). Column order: create time, sender, text, is_retweet,
retweet_sender, is_quote, quoted_tweet_sender, quoted_tweet_text. -/
def tweet_row (tweet : Tweet) : List Json :=
  [ tweet.created_at,
    tweet.user.screen_name,
    tweet.full_text,
    .bool (tweet.retweeted_status.isSome),
    (match tweet.retweeted_status with
     | none => Json.null
     | some rt => rt.user.screen_name),
    (match (get_quote tweet).1 with
     | some v => if v.truthy then Json.bool true else Json.null
     | none => Json.null),
    ((get_quote tweet).1.getD Json.null),
    ((get_quote tweet).2.getD Json.null) ]

/-- Embedding of `tweets_to_df`: the list of rows of the resulting data
frame. -/
def tweets_to_df (tweets : List Tweet) : List (List Json) :=
  tweets.map tweet_row

/-- Column names of the data frame built by `tweets_to_df`. -/
def df_columns : List String :=
  ["create time", "sender", "text", "is_retweet", "retweet_sender",
   "is_quote", "quoted_tweet_sender", "quoted_tweet_text"]

/-! ## Well-typedness and other predicates used in claim statements -/

/-- An element of one of the four entity arrays is well-typed when it is a
dictionary whose `indices` value, if present, is an array (so that
`tuple(data['indices'])` cannot raise `TypeError`). -/
def wtIndexed (j : Json) : Bool :=
  match j with
  | .obj kvs =>
    match lookupKey kvs "indices" with
    | some v => v.isArr
    | none => true
  | _ => false

/-- A value stored under one of the four entity-array keys is well-typed
when it is an array of well-typed elements. -/
def wtEntityList (v : Json) : Bool :=
  match v with
  | .arr xs => xs.all wtIndexed
  | _ => false

/-- An `entities` payload is well-typed when it is a dictionary whose four
entity-array values, where present, are arrays of well-typed elements
(absent keys are a `MissingField` matter, not a typing one). -/
def wtEntities (j : Json) : Bool :=
  match j with
  | .obj kvs =>
    (match lookupKey kvs "hashtags" with
     | some v => wtEntityList v
     | none => true) &&
    (match lookupKey kvs "urls" with
     | some v => wtEntityList v
     | none => true) &&
    (match lookupKey kvs "user_mentions" with
     | some v => wtEntityList v
     | none => true) &&
    (match lookupKey kvs "symbols" with
     | some v => wtEntityList v
     | none => true)
  | _ => false

/-- A post payload is well-typed (conforms to the platform schema as far as
the deserializer's type assumptions go) when it is a dictionary and, where
present, its `extended_tweet` and `user` values are dictionaries, its
`entities` value is well-typed, and its `quoted_status` and
`retweeted_status` values are recursively well-typed payloads. Values of
all other keys are unconstrained: the deserializer stores them as they are. -/
def wellTypedTweet : Json → Bool
  | .obj kvs =>
    (match lookupKey kvs "extended_tweet" with
     | some v => v.isObj
     | none => true) &&
    (match lookupKey kvs "user" with
     | some v => v.isObj
     | none => true) &&
    (match lookupKey kvs "entities" with
     | some v => wtEntities v
     | none => true) &&
    (match hq : lookupKey kvs "quoted_status" with
     | some q => wellTypedTweet q
     | none => true) &&
    (match hr : lookupKey kvs "retweeted_status" with
     | some r => wellTypedTweet r
     | none => true)
  | _ => false
termination_by j => sizeOf j
decreasing_by
  · rename_i kvs
    simp only [Json.obj.sizeOf_spec]
    have h := sizeOf_lookupKey_lt kvs "quoted_status"
    rw [hq] at h
    simp at h
    omega
  · rename_i kvs
    simp only [Json.obj.sizeOf_spec]
    have h := sizeOf_lookupKey_lt kvs "retweeted_status"
    rw [hr] at h
    simp at h
    omega

/-- A payload carries an explicit `full_text` key at its top level and,
recursively, in every nested `quoted_status` / `retweeted_status` payload:
exactly the payloads whose dictionaries the resolution block of
`Tweet.deserializer` never writes to. -/
def hasFullTextDeep : Json → Bool
  | .obj kvs =>
    (lookupKey kvs "full_text").isSome &&
    (match hq : lookupKey kvs "quoted_status" with
     | some q => hasFullTextDeep q
     | none => true) &&
    (match hr : lookupKey kvs "retweeted_status" with
     | some r => hasFullTextDeep r
     | none => true)
  | _ => false
termination_by j => sizeOf j
decreasing_by
  · rename_i kvs
    simp only [Json.obj.sizeOf_spec]
    have h := sizeOf_lookupKey_lt kvs "quoted_status"
    rw [hq] at h
    simp at h
    omega
  · rename_i kvs
    simp only [Json.obj.sizeOf_spec]
    have h := sizeOf_lookupKey_lt kvs "retweeted_status"
    rw [hr] at h
    simp at h
    omega

/-- The text-bearing fields a schema-conforming payload must carry as
strings: `full_text`, `text`, the `full_text` of an `extended_tweet` record
and of a `retweeted_status`'s `extended_tweet` record (each only where
present). Under this assumption the resolved `full_text` is a string. -/
def textFieldsOk (kvs : List (String × Json)) : Prop :=
  (∀ v, lookupKey kvs "full_text" = some v → v.isStr = true) ∧
  (∀ v, lookupKey kvs "text" = some v → v.isStr = true) ∧
  (∀ et v, lookupKey kvs "extended_tweet" = some et →
    et.getKey "full_text" = some v → v.isStr = true) ∧
  (∀ rs et v, lookupKey kvs "retweeted_status" = some rs →
    rs.getKey "extended_tweet" = some et →
    et.getKey "full_text" = some v → v.isStr = true)

/-- Required keys of `TweetUser.deserializer`, in the order they are read. -/
def userRequiredKeys : List String :=
  ["id", "name", "screen_name", "location", "url", "description", "protected",
   "verified", "followers_count", "friends_count", "listed_count",
   "favourites_count", "statuses_count", "created_at",
   "profile_image_url_https", "default_profile", "default_profile_image",
   "withheld_in_countries"]

/-- The `count` keywords recorded in a trace of `collect_tweets` fetch calls
all equal `min(MAX_COUNT, remaining)` for the remaining count at the time of
the call, where each page decrements the remaining count by its length. -/
def traceCounts : List (FetchCall × List Status) → Int → Prop
  | [], _ => True
  | (c, p) :: rest, remaining =>
    c.count = min MAX_COUNT remaining ∧ traceCounts rest (remaining - p.length)

/-- The id of the last element of a page, `0` for an empty page (only ever
applied to nonempty pages). -/
def lastIdL : List Status → Int
  | [] => 0
  | p :: ps => lastId p ps

/-! ## Concrete sample inputs -/

/-- A minimal schema-conforming `user` payload carrying every required key
and no optional key (`profile_banner_url` absent). -/
def baseUserKvs : List (String × Json) :=
  [("id", .num 42), ("name", .str "Alice"), ("screen_name", .str "alice"),
   ("location", .null), ("url", .null), ("description", .null),
   ("protected", .bool false), ("verified", .bool false),
   ("followers_count", .num 10), ("friends_count", .num 20),
   ("listed_count", .num 0), ("favourites_count", .num 3),
   ("statuses_count", .num 4),
   ("created_at", .str "Mon Nov 29 21:18:15 +0000 2010"),
   ("profile_image_url_https", .str "https://img"),
   ("default_profile", .bool true), ("default_profile_image", .bool true),
   ("withheld_in_countries", .arr [])]

/-- An `entities` payload with the four required arrays all empty. -/
def emptyEntitiesJson : Json :=
  .obj [("hashtags", .arr []), ("urls", .arr []),
        ("user_mentions", .arr []), ("symbols", .arr [])]

/-- A minimal schema-conforming post payload: every required key present,
`full_text` absent, `truncated` false, and none of the optional keys
(`full_text`, `extended_tweet`, `quoted_status_id`, `quoted_status`,
`possibly_sensitive`, `retweeted_status`) present. -/
def baseTweetKvs : List (String × Json) :=
  [("created_at", .str "Wed Oct 10 20:19:24 +0000 2018"),
   ("id", .num 1000), ("text", .str "hello"), ("truncated", .bool false),
   ("source", .str "web"),
   ("in_reply_to_status_id", .null), ("in_reply_to_user_id", .null),
   ("in_reply_to_screen_name", .null),
   ("user", .obj baseUserKvs), ("coordinates", .null), ("place", .null),
   ("is_quote_status", .bool false),
   ("retweet_count", .num 5), ("favorite_count", .num 7),
   ("entities", emptyEntitiesJson),
   ("favorited", .bool false), ("retweeted", .bool false),
   ("lang", .str "en")]

/-- The payload of the mutation counterexample: `baseTweetKvs` as a `Json`
dictionary. -/
def c4_payload : Json := .obj baseTweetKvs

/-- What `Tweet.deserializer` turns `c4_payload` into: the same dictionary
with the resolved `full_text` (the short `text`, since `truncated` is false
and there is no `retweeted_status`) appended by `data['full_text'] = ...`. -/
def c4_mutated : Json := .obj (baseTweetKvs ++ [("full_text", .str "hello")])

/-- `baseTweetKvs` with its `created_at` binding removed: a payload missing
one required key. -/
def c5badKvs : List (String × Json) :=
  [("id", .num 1000), ("text", .str "hello"), ("truncated", .bool false),
   ("source", .str "web"),
   ("in_reply_to_status_id", .null), ("in_reply_to_user_id", .null),
   ("in_reply_to_screen_name", .null),
   ("user", .obj baseUserKvs), ("coordinates", .null), ("place", .null),
   ("is_quote_status", .bool false),
   ("retweet_count", .num 5), ("favorite_count", .num 7),
   ("entities", emptyEntitiesJson),
   ("favorited", .bool false), ("retweeted", .bool false),
   ("lang", .str "en")]

/-- Sample `TweetData` for directly constructed `Tweet` values (sender
screen name and full text vary, everything else fixed). -/
def sampleData (sn txt : String) : TweetData :=
  { created_at := .str "Wed Oct 10 20:19:24 +0000 2018", id := .num 1,
    full_text := .str txt, source := .str "web",
    in_reply_to_status_id := .null, in_reply_to_user_id := .null,
    in_reply_to_screen_name := .null,
    user := { id := .num 1, name := .str sn, screen_name := .str sn,
              location := .null, url := .null, description := .null,
              protected_ := .bool false, verified := .bool false,
              followers_count := .num 0, friends_count := .num 0,
              listed_count := .num 0, favourites_count := .num 0,
              statuses_count := .num 0, created_at := .str "c",
              profile_banner_url := .null,
              profile_image_url_https := .str "u",
              default_profile := .bool true,
              default_profile_image := .bool true,
              withheld_in_countries := .arr [] },
    coordinates := .null, place := .null, is_quote_status := .bool false,
    quoted_status_id := .null, retweet_count := .num 0,
    favorite_count := .num 0,
    entities := { hashtags := [], urls := [], user_mentions := [],
                  symbols := [] },
    favorited := .bool false, retweeted := .bool false,
    possibly_sensitive := .null, lang := .str "en" }

/-- A plain post with no quote and no reshare. -/
def samplePlain : Tweet := .mk (sampleData "dave" "plain") none none

/-- A post that quotes `samplePlain`. -/
def sampleQuote : Tweet :=
  .mk (sampleData "bob" "commentary") (some samplePlain) none

/-- A plain reshare of the quote post `sampleQuote`; its own
`quoted_status` is deliberately `none` (a reshare's quote relationship
lives on the original). -/
def sampleRetweetOfQuote : Tweet :=
  .mk (sampleData "carol" "RT") none (some sampleQuote)

/-- A plain reshare of `samplePlain` (no quote anywhere). -/
def sampleRetweet : Tweet :=
  .mk (sampleData "erin" "RT") none (some samplePlain)

/-- Paginated fetch method of the `requested_count = 450` scenario: a full
page of 200 items (last id 801), then — under the cursor 800 that the loop
derives from it — another full page (last id 601), then under cursor 600 a
final page of 50 items. Only a page's length and last id matter to the
loop, so pages are `List.replicate`. -/
def c2method (c : Int) (cursor : Option Int) : List Status :=
  match cursor with
  | none => List.replicate 200 ⟨801⟩
  | some m =>
    if m = 800 then List.replicate 200 ⟨601⟩
    else if m = 600 then List.replicate 50 ⟨551⟩
    else []

/-- Paginated fetch method of the early-stop scenario: a full first page,
then an empty page. -/
def c2methodEarly (c : Int) (cursor : Option Int) : List Status :=
  match cursor with
  | none => List.replicate 200 ⟨801⟩
  | some _ => []

/-- The `TweetUser` value deserialized from `baseUserKvs`. -/
def baseUser : TweetUser :=
  { id := .num 42, name := .str "Alice", screen_name := .str "alice",
    location := .null, url := .null, description := .null,
    protected_ := .bool false, verified := .bool false,
    followers_count := .num 10, friends_count := .num 20,
    listed_count := .num 0, favourites_count := .num 3,
    statuses_count := .num 4,
    created_at := .str "Mon Nov 29 21:18:15 +0000 2010",
    profile_banner_url := .null,
    profile_image_url_https := .str "https://img",
    default_profile := .bool true, default_profile_image := .bool true,
    withheld_in_countries := .arr [] }

/-- First field chunk deserialized from `baseTweetKvs`-shaped payloads, with
the resolved full text `ft`. -/
def baseTweetA (ft : Json) : TweetFieldsA :=
  { full_text := ft, created_at := .str "Wed Oct 10 20:19:24 +0000 2018",
    id := .num 1000, source := .str "web", in_reply_to_status_id := .null,
    in_reply_to_user_id := .null, in_reply_to_screen_name := .null,
    user := baseUser, coordinates := .null, place := .null,
    is_quote_status := .bool false, quoted_status_id := .null }

/-- Second field chunk deserialized from `baseTweetKvs`-shaped payloads. -/
def baseTweetB : TweetFieldsB :=
  { retweet_count := .num 5, favorite_count := .num 7,
    entities := { hashtags := [], urls := [], user_mentions := [],
                  symbols := [] },
    favorited := .bool false, retweeted := .bool false,
    possibly_sensitive := .null, lang := .str "en" }

/-- The `Tweet` deserialized from `baseTweetKvs`-shaped payloads, with the
resolved full text `ft`. -/
def baseTweet (ft : Json) : Tweet :=
  .mk (mkTweetData (baseTweetA ft) baseTweetB) none none

/-- `baseTweetKvs` with an explicit `full_text` binding in front: a payload
the resolution block leaves untouched. -/
def ftTweetKvs : List (String × Json) :=
  ("full_text", .str "explicit") :: baseTweetKvs

/-! ## Basic lemmas -/

theorem exbind_ok {α β : Type} (x : α) (f : α → Except DeserErr β) :
    (Except.ok x : Except DeserErr α) >>= f = f x := rfl

theorem exbind_err {α β : Type} (e : DeserErr) (f : α → Except DeserErr β) :
    (Except.error e : Except DeserErr α) >>= f = Except.error e := rfl

theorem expure {α : Type} (x : α) :
    (pure x : Except DeserErr α) = Except.ok x := rfl

theorem bind_ok_iff {α β : Type} {x : Except DeserErr α}
    {f : α → Except DeserErr β} {b : β} :
    x >>= f = .ok b ↔ ∃ a, x = .ok a ∧ f a = .ok b := by
  cases x <;> simp [exbind_ok, exbind_err]

theorem bind_err_iff {α β : Type} {x : Except DeserErr α}
    {f : α → Except DeserErr β} {e : DeserErr} :
    x >>= f = .error e ↔
      (x = .error e ∨ ∃ a, x = .ok a ∧ f a = .error e) := by
  cases x <;> simp [exbind_ok, exbind_err]

theorem getK_ok_iff {kvs : List (String × Json)} {k : String} {v : Json} :
    getK kvs k = .ok v ↔ lookupKey kvs k = some v := by
  unfold getK
  split <;> simp_all

theorem getK_err_iff {kvs : List (String × Json)} {k : String} {e : DeserErr} :
    getK kvs k = .error e ↔
      (e = .missingField k ∧ lookupKey kvs k = none) := by
  unfold getK
  split <;> simp_all
  exact eq_comm

theorem ok_eq_err_iff {α : Type} {a : α} {e : DeserErr} :
    ((Except.ok a : Except DeserErr α) = .error e) ↔ False := by simp

theorem ok_eq_ok_iff {α : Type} {a b : α} :
    ((Except.ok a : Except DeserErr α) = .ok b) ↔ a = b := by simp

theorem dopt_none : Tweet.deserializerOpt none = .ok none := by
  simp only [Tweet.deserializerOpt]
  rfl

theorem dopt_some_iff {v : Json} {r : Option (Json × Tweet)} :
    Tweet.deserializerOpt (some v) = .ok r ↔
      ∃ p, Tweet.deserializer v = .ok p ∧ r = some p := by
  constructor
  · intro h
    simp only [Tweet.deserializerOpt, bind_ok_iff, expure, ok_eq_ok_iff] at h
    obtain ⟨p, hp, hr⟩ := h
    exact ⟨p, hp, hr.symm⟩
  · rintro ⟨p, hp, rfl⟩
    simp only [Tweet.deserializerOpt, hp, exbind_ok, expure]

theorem dopt_ok_isSome {o : Option Json} {r : Option (Json × Tweet)}
    (h : Tweet.deserializerOpt o = .ok r) : r.isSome = o.isSome := by
  cases o with
  | none => rw [dopt_none] at h; cases h; rfl
  | some v =>
    obtain ⟨p, _, rfl⟩ := dopt_some_iff.mp h
    rfl

theorem dopt_err_iff {o : Option Json} {e : DeserErr} :
    Tweet.deserializerOpt o = .error e ↔
      ∃ v, o = some v ∧ Tweet.deserializer v = .error e := by
  cases o with
  | none =>
    rw [dopt_none]
    simp
  | some v =>
    simp only [Tweet.deserializerOpt, bind_err_iff, expure, ok_eq_err_iff]
    simp

/-- Success inversion for `Tweet.deserializer` on a dictionary payload: the
two chunks and the two optional recursions all succeeded, and the outputs
are assembled from their results. -/
theorem Tweet.deserializer_ok_inv {kvs : List (String × Json)} {d' : Json}
    {t : Tweet} (h : Tweet.deserializer (.obj kvs) = .ok (d', t)) :
    ∃ a qres b rres,
      Tweet.deserializerA kvs = .ok a ∧
      Tweet.deserializerOpt (lookupKey kvs "quoted_status") = .ok qres ∧
      Tweet.deserializerB kvs = .ok b ∧
      Tweet.deserializerOpt (lookupKey kvs "retweeted_status") = .ok rres ∧
      d' = Json.obj (mutKvs kvs a.full_text qres rres) ∧
      t = Tweet.mk (mkTweetData a b) (qres.map Prod.snd) (rres.map Prod.snd) := by
  simp only [Tweet.deserializer, bind_ok_iff, expure, ok_eq_ok_iff,
    Prod.mk.injEq] at h
  obtain ⟨a, ha, qres, hq, b, hb, rres, hr, hd, ht⟩ := h
  exact ⟨a, qres, b, rres, ha, hq, hb, hr, hd.symm, ht.symm⟩

/-- Error inversion for `Tweet.deserializer` on a dictionary payload. -/
theorem Tweet.deserializer_err_inv {kvs : List (String × Json)} {e : DeserErr}
    (h : Tweet.deserializer (.obj kvs) = .error e) :
    Tweet.deserializerA kvs = .error e ∨
    (∃ qv, lookupKey kvs "quoted_status" = some qv ∧
       Tweet.deserializer qv = .error e) ∨
    Tweet.deserializerB kvs = .error e ∨
    (∃ rv, lookupKey kvs "retweeted_status" = some rv ∧
       Tweet.deserializer rv = .error e) := by
  simp only [Tweet.deserializer, bind_err_iff, expure, ok_eq_err_iff,
    and_false, exists_false, or_false] at h
  rcases h with h | ⟨a, ha, h⟩
  · exact Or.inl h
  rcases h with h | ⟨qres, hq, h⟩
  · exact Or.inr (Or.inl (dopt_err_iff.mp h))
  rcases h with h | ⟨b, hb, h⟩
  · exact Or.inr (Or.inr (Or.inl h))
  exact Or.inr (Or.inr (Or.inr (dopt_err_iff.mp h)))

theorem deserA_base : Tweet.deserializerA baseTweetKvs = .ok (baseTweetA (.str "hello")) := rfl

theorem deserA_ft : Tweet.deserializerA ftTweetKvs = .ok (baseTweetA (.str "explicit")) := rfl

theorem deserB_base : Tweet.deserializerB baseTweetKvs = .ok baseTweetB := rfl

theorem deserB_ft : Tweet.deserializerB ftTweetKvs = .ok baseTweetB := rfl

/-- Evaluation of the deserializer on the minimal payload: the short text is
resolved into `full_text`, and the input dictionary gains a `full_text`
binding. -/
theorem deser_base :
    Tweet.deserializer c4_payload = .ok (c4_mutated, baseTweet (.str "hello")) := by
  simp only [c4_payload, Tweet.deserializer]
  rw [show lookupKey baseTweetKvs "quoted_status" = none from rfl]
  rw [show lookupKey baseTweetKvs "retweeted_status" = none from rfl]
  rw [dopt_none]
  rfl

/-- Evaluation of the deserializer on the payload with an explicit
`full_text`: the input dictionary comes back unchanged. -/
theorem deser_ft :
    Tweet.deserializer (.obj ftTweetKvs) = .ok (.obj ftTweetKvs, baseTweet (.str "explicit")) := by
  simp only [Tweet.deserializer]
  rw [show lookupKey ftTweetKvs "quoted_status" = none from rfl]
  rw [show lookupKey ftTweetKvs "retweeted_status" = none from rfl]
  rw [dopt_none]
  rfl

theorem insertKey_self {kvs : List (String × Json)} {k : String} {v : Json}
    (h : lookupKey kvs k = some v) : insertKey kvs k v = kvs := by
  induction kvs with
  | nil => simp [lookupKey] at h
  | cons p rest ih =>
    obtain ⟨a, b⟩ := p
    simp only [lookupKey] at h
    simp only [insertKey]
    split
    · rename_i hak
      rw [if_pos hak] at h
      cases h
      rw [hak]
    · rename_i hak
      rw [if_neg hak] at h
      rw [ih h]

theorem lookup_some_sizeOf {kvs : List (String × Json)} {k : String} {v : Json}
    (h : lookupKey kvs k = some v) : sizeOf v + 1 < sizeOf (Json.obj kvs) := by
  have hb := sizeOf_lookupKey_lt kvs k
  rw [h] at hb
  simp at hb ⊢
  omega

/-- Unfolding of `hasFullTextDeep` on a dictionary payload. -/
theorem hasFullTextDeep_obj {kvs : List (String × Json)}
    (h : hasFullTextDeep (.obj kvs) = true) :
    (lookupKey kvs "full_text").isSome = true ∧
    (∀ q, lookupKey kvs "quoted_status" = some q → hasFullTextDeep q = true) ∧
    (∀ r, lookupKey kvs "retweeted_status" = some r → hasFullTextDeep r = true) := by
  simp only [hasFullTextDeep, Bool.and_eq_true] at h
  obtain ⟨⟨h1, h2⟩, h3⟩ := h
  refine ⟨h1, ?_, ?_⟩
  · intro q hlq
    split at h2
    · rename_i q2 heq2
      rw [hlq] at heq2
      cases heq2
      exact h2
    · rename_i heq2
      rw [hlq] at heq2
      cases heq2
  · intro r hlr
    split at h3
    · rename_i r2 heq2
      rw [hlr] at heq2
      cases heq2
      exact h3
    · rename_i heq2
      rw [hlr] at heq2
      cases heq2

/-- Fuel-indexed induction core for the mutation-free case: a payload that
carries `full_text` at every nesting level is returned unchanged by the
deserializer. -/
theorem deser_preserves_aux : ∀ (n : Nat) (j : Json), sizeOf j ≤ n →
    ∀ (d' : Json) (t : Tweet), hasFullTextDeep j = true →
    Tweet.deserializer j = .ok (d', t) → d' = j := by
  intro n
  induction n with
  | zero =>
    intro j hj
    cases j <;> simp at hj
  | succ n ih =>
    intro j hj d' t hf h
    cases j with
    | obj kvs =>
      obtain ⟨a, qres, b, rres, ha, hq, hb, hr, hd, ht⟩ :=
        Tweet.deserializer_ok_inv h
      obtain ⟨hft, hfq, hfr⟩ := hasFullTextDeep_obj hf
      clear h hf ht
      have hsize : sizeOf kvs ≤ n := by
        simp at hj
        omega
      subst hd
      unfold mutKvs
      rw [hft]
      simp only [if_true]
      cases qres with
      | none =>
        cases rres with
        | none => rfl
        | some pr =>
          obtain ⟨dr, tr⟩ := pr
          cases hlr : lookupKey kvs "retweeted_status" with
          | none =>
            rw [hlr, dopt_none] at hr
            simp at hr
          | some rv =>
            rw [hlr] at hr
            obtain ⟨p, hdp, hps⟩ := dopt_some_iff.mp hr
            cases hps
            have hle : sizeOf rv ≤ n := by
              have := lookup_some_sizeOf hlr
              simp at this
              omega
            have hrv := ih rv hle dr tr (hfr rv hlr) hdp
            subst hrv
            simp only [insertKey_self hlr]
      | some pq =>
        obtain ⟨dq, tq⟩ := pq
        cases hlq : lookupKey kvs "quoted_status" with
        | none =>
          rw [hlq, dopt_none] at hq
          simp at hq
        | some qv =>
          rw [hlq] at hq
          obtain ⟨p, hdp, hps⟩ := dopt_some_iff.mp hq
          cases hps
          have hle : sizeOf qv ≤ n := by
            have := lookup_some_sizeOf hlq
            simp at this
            omega
          have hqv := ih qv hle dq tq (hfq qv hlq) hdp
          subst hqv
          simp only [insertKey_self hlq]
          cases rres with
          | none => rfl
          | some pr =>
            obtain ⟨dr, tr⟩ := pr
            cases hlr : lookupKey kvs "retweeted_status" with
            | none =>
              rw [hlr, dopt_none] at hr
              simp at hr
            | some rv =>
              rw [hlr] at hr
              obtain ⟨p2, hdp2, hps2⟩ := dopt_some_iff.mp hr
              cases hps2
              have hle2 : sizeOf rv ≤ n := by
                have := lookup_some_sizeOf hlr
                simp at this
                omega
              have hrv := ih rv hle2 dr tr (hfr rv hlr) hdp2
              subst hrv
              simp only [insertKey_self hlr]
    | null => simp [hasFullTextDeep] at hf
    | bool bv => simp [hasFullTextDeep] at hf
    | num nv => simp [hasFullTextDeep] at hf
    | str sv => simp [hasFullTextDeep] at hf
    | arr av => simp [hasFullTextDeep] at hf

/-- Success inversion for the first field chunk: every required key was
present and each field holds the looked-up value (`quoted_status_id`
defaulting to null). -/
theorem Tweet.deserializerA_ok_inv {kvs : List (String × Json)}
    {a : TweetFieldsA} (h : Tweet.deserializerA kvs = .ok a) :
    fullTextResolve kvs = .ok a.full_text ∧
    lookupKey kvs "created_at" = some a.created_at ∧
    lookupKey kvs "id" = some a.id ∧
    lookupKey kvs "source" = some a.source ∧
    lookupKey kvs "in_reply_to_status_id" = some a.in_reply_to_status_id ∧
    lookupKey kvs "in_reply_to_user_id" = some a.in_reply_to_user_id ∧
    lookupKey kvs "in_reply_to_screen_name" = some a.in_reply_to_screen_name ∧
    (∃ uj, lookupKey kvs "user" = some uj ∧
       TweetUser.deserializer uj = .ok a.user) ∧
    lookupKey kvs "coordinates" = some a.coordinates ∧
    lookupKey kvs "place" = some a.place ∧
    lookupKey kvs "is_quote_status" = some a.is_quote_status ∧
    a.quoted_status_id = (lookupKey kvs "quoted_status_id").getD .null := by
  simp only [Tweet.deserializerA, bind_ok_iff, expure, ok_eq_ok_iff,
    getK_ok_iff] at h
  obtain ⟨ftv, hft, c1, hc1, c2, hc2, c3, hc3, c4, hc4, c5, hc5, c6, hc6,
    uj, hu, u, hud, c7, hc7, c8, hc8, c9, hc9, ha⟩ := h
  subst ha
  exact ⟨hft, hc1, hc2, hc3, hc4, hc5, hc6, ⟨uj, hu, hud⟩, hc7, hc8, hc9, rfl⟩

/-- Success inversion for the second field chunk. -/
theorem Tweet.deserializerB_ok_inv {kvs : List (String × Json)}
    {b : TweetFieldsB} (h : Tweet.deserializerB kvs = .ok b) :
    lookupKey kvs "retweet_count" = some b.retweet_count ∧
    lookupKey kvs "favorite_count" = some b.favorite_count ∧
    (∃ ej, lookupKey kvs "entities" = some ej ∧
       Entities.deserializer ej = .ok b.entities) ∧
    lookupKey kvs "favorited" = some b.favorited ∧
    lookupKey kvs "retweeted" = some b.retweeted ∧
    b.possibly_sensitive = (lookupKey kvs "possibly_sensitive").getD .null ∧
    lookupKey kvs "lang" = some b.lang := by
  simp only [Tweet.deserializerB, bind_ok_iff, expure, ok_eq_ok_iff,
    getK_ok_iff] at h
  obtain ⟨c1, hc1, c2, hc2, ej, he, en, hed, c3, hc3, c4, hc4, c5, hc5, hb⟩ := h
  subst hb
  exact ⟨hc1, hc2, ⟨ej, he, hed⟩, hc3, hc4, rfl, hc5⟩

/-- C4 counterexample: deserializing the accepted minimal payload
`c4_payload` (no `full_text` key) succeeds but hands back a mutated input
dictionary — the resolved `full_text` has been inserted — so the claim that
every deserialization leaves the input mapping unchanged is false. -/
theorem c4_deserializer_mutates_input :
    (Tweet.deserializer c4_payload).map Prod.fst = .ok c4_mutated ∧
    c4_mutated ≠ c4_payload := by
  constructor
  · rw [deser_base]
    rfl
  · intro h
    have hlen := congrArg (fun j => match j with
      | Json.obj l => l.length
      | _ => 0) h
    simp [c4_mutated, c4_payload, baseTweetKvs] at hlen

/-- C4 (amended): the entity deserializers construct their results purely,
but `Tweet.deserializer` mutates the input mapping when a nesting level
lacks `full_text`, inserting the resolved value there; a payload that
already carries `full_text` at its top level and in every nested
`quoted_status` / `retweeted_status` payload is returned unchanged. -/
theorem c4_deserializer_pure_when_full_text_present (j d' : Json) (t : Tweet)
    (hf : hasFullTextDeep j = true) (h : Tweet.deserializer j = .ok (d', t)) :
    d' = j :=
  deser_preserves_aux (sizeOf j) j le_rfl d' t hf h

theorem c4_deserializer_pure_when_full_text_present_witness :
    Json.obj ftTweetKvs = Json.obj ftTweetKvs :=
  c4_deserializer_pure_when_full_text_present (.obj ftTweetKvs)
    (.obj ftTweetKvs) (baseTweet (.str "explicit"))
    (by simp only [hasFullTextDeep]; rfl) deser_ft

theorem getReq_ok_iff {j : Json} {k : String} {v : Json} :
    getReq j k = .ok v ↔ j.getKey k = some v := by
  cases j <;> simp [getReq, Json.getKey, getK_ok_iff]

theorem getKey_some_obj {j : Json} {k : String} {v : Json}
    (h : j.getKey k = some v) :
    ∃ kvs, j = .obj kvs ∧ lookupKey kvs k = some v := by
  cases j <;> simp [Json.getKey] at h
  case obj kvs => exact ⟨kvs, rfl, h⟩

/-- C1: on every accepted post payload the deserialized post's `full_text`
follows the documented resolution chain — the explicit `full_text` value if
the key exists; else the `extended_tweet` record's full text when the
payload is truncated and carries one; else the `retweeted_status` payload's
`extended_tweet` full text when that exists; else the short `text` — and
whenever the payload's text-bearing fields are strings the resolved
`full_text` is a string. -/
theorem c1_full_text_resolution (kvs : List (String × Json)) (d' : Json)
    (t : Tweet) (h : Tweet.deserializer (.obj kvs) = .ok (d', t)) :
    (∀ v, lookupKey kvs "full_text" = some v → t.full_text = v) ∧
    (∀ tv et v, lookupKey kvs "full_text" = none →
       lookupKey kvs "truncated" = some tv → tv.truthy = true →
       lookupKey kvs "extended_tweet" = some et →
       et.getKey "full_text" = some v → t.full_text = v) ∧
    (∀ tv rs et v, lookupKey kvs "full_text" = none →
       lookupKey kvs "truncated" = some tv →
       (tv.truthy = false ∨ lookupKey kvs "extended_tweet" = none) →
       lookupKey kvs "retweeted_status" = some rs →
       rs.getKey "extended_tweet" = some et →
       et.getKey "full_text" = some v → t.full_text = v) ∧
    (∀ tv w, lookupKey kvs "full_text" = none →
       lookupKey kvs "truncated" = some tv →
       (tv.truthy = false ∨ lookupKey kvs "extended_tweet" = none) →
       (lookupKey kvs "retweeted_status" = none ∨
        (∃ rs, lookupKey kvs "retweeted_status" = some rs ∧
           rs.getKey "extended_tweet" = none)) →
       lookupKey kvs "text" = some w → t.full_text = w) ∧
    (textFieldsOk kvs → t.full_text.isStr = true) := by
  obtain ⟨a, qres, b, rres, ha, hq, hb, hr, hd, ht⟩ :=
    Tweet.deserializer_ok_inv h
  have hres := (Tweet.deserializerA_ok_inv ha).1
  have htf : t.full_text = a.full_text := by
    rw [ht]
    rfl
  refine ⟨?_, ?_, ?_, ?_, ?_⟩
  · intro v hftp
    simp only [fullTextResolve, hftp, ok_eq_ok_iff] at hres
    rw [htf, ← hres]
  · intro tv et v hftp htr htv het hetv
    simp only [fullTextResolve, hftp, htr, htv, het, if_true] at hres
    rw [getReq_ok_iff, hetv] at hres
    cases hres
    rw [htf]
  · intro tv rs et v hftp htr hcond hrs hrse hetv
    obtain ⟨rkvs, rfl, hrk⟩ := getKey_some_obj hrse
    have hnone : (if tv.truthy then lookupKey kvs "extended_tweet" else none)
        = none := by
      rcases hcond with hc | hc
      · rw [hc, if_neg]
        simp
      · rw [hc]
        split <;> rfl
    simp only [fullTextResolve, hftp, htr, hnone, hrs, hrk] at hres
    rw [getReq_ok_iff, hetv] at hres
    cases hres
    rw [htf]
  · intro tv w hftp htr hcond hrsd hw
    have hnone : (if tv.truthy then lookupKey kvs "extended_tweet" else none)
        = none := by
      rcases hcond with hc | hc
      · rw [hc, if_neg]
        simp
      · rw [hc]
        split <;> rfl
    rcases hrsd with hrs | ⟨rs, hrs, hrse⟩
    · simp only [fullTextResolve, hftp, htr, hnone, hrs, getK_ok_iff, hw] at hres
      cases hres
      rw [htf]
    · cases rs with
      | obj rkvs =>
        simp only [Json.getKey] at hrse
        simp only [fullTextResolve, hftp, htr, hnone, hrs, hrse, getK_ok_iff,
          hw] at hres
        cases hres
        rw [htf]
      | null =>
        simp only [fullTextResolve, hftp, htr, hnone, hrs] at hres
        exact Except.noConfusion hres
      | bool bv =>
        simp only [fullTextResolve, hftp, htr, hnone, hrs] at hres
        exact Except.noConfusion hres
      | num nv =>
        simp only [fullTextResolve, hftp, htr, hnone, hrs] at hres
        exact Except.noConfusion hres
      | str sv =>
        simp only [fullTextResolve, hftp, htr, hnone, hrs] at hres
        exact Except.noConfusion hres
      | arr av =>
        simp only [fullTextResolve, hftp, htr, hnone, hrs] at hres
        exact Except.noConfusion hres
  · intro htfo
    obtain ⟨tfo1, tfo2, tfo3, tfo4⟩ := htfo
    rw [htf]
    unfold fullTextResolve at hres
    split at hres
    · rename_i v hv
      rw [ok_eq_ok_iff] at hres
      rw [← hres]
      exact tfo1 _ hv
    · split at hres
      · exact Except.noConfusion hres
      · rename_i tv htr
        split at hres
        · rename_i et hif
          have het : lookupKey kvs "extended_tweet" = some et := by
            cases htv : tv.truthy with
            | true =>
              rw [htv, if_pos rfl] at hif
              exact hif
            | false =>
              rw [if_neg (by simp [htv])] at hif
              exact Option.noConfusion hif
          rw [getReq_ok_iff] at hres
          exact tfo3 _ _ het hres
        · split at hres
          · rw [getK_ok_iff] at hres
            exact tfo2 _ hres
          · rename_i rs hrs
            split at hres
            · rename_i rkvs
              split at hres
              · rename_i et2 hek
                rw [getReq_ok_iff] at hres
                exact tfo4 _ _ _ hrs (by simp [Json.getKey, hek]) hres
              · rw [getK_ok_iff] at hres
                exact tfo2 _ hres
            · exact Except.noConfusion hres

theorem c1_full_text_resolution_witness :
    (baseTweet (.str "hello")).full_text = .str "hello" :=
  ((c1_full_text_resolution baseTweetKvs c4_mutated (baseTweet (.str "hello"))
      deser_base).2.2.2.1) (.bool false) (.str "hello") rfl rfl (Or.inl rfl)
    (Or.inl rfl) rfl

/-- Success inversion for `TweetUser.deserializer`: the payload was a
dictionary and the optional `profile_banner_url` holds the
`data.get('profile_banner_url', None)` result. -/
theorem user_deserializer_ok_inv {j : Json} {u : TweetUser}
    (h : TweetUser.deserializer j = .ok u) :
    ∃ ukvs, j = .obj ukvs ∧
      u.profile_banner_url = (lookupKey ukvs "profile_banner_url").getD .null := by
  cases j with
  | obj ukvs =>
    simp only [TweetUser.deserializer, bind_ok_iff, expure, ok_eq_ok_iff,
      getK_ok_iff] at h
    obtain ⟨v1, h1, v2, h2, v3, h3, v4, h4, v5, h5, v6, h6, v7, h7, v8, h8,
      v9, h9, v10, h10, v11, h11, v12, h12, v13, h13, v14, h14, v15, h15,
      v16, h16, v17, h17, v18, h18, hu⟩ := h
    subst hu
    exact ⟨ukvs, rfl, rfl⟩
  | null => exact Except.noConfusion h
  | bool bv => exact Except.noConfusion h
  | num nv => exact Except.noConfusion h
  | str sv => exact Except.noConfusion h
  | arr av => exact Except.noConfusion h

/-- C9: deserializing a payload carrying none of the optional keys
(`quoted_status_id`, `possibly_sensitive`, `quoted_status`,
`retweeted_status`, and the user's `profile_banner_url`) yields a post
whose optional fields are all explicitly absent (`None` / nil), and its
`tweets_to_df` row has `is_retweet = False` and `is_quote = None`. -/
theorem c9_no_optionals_round_trip (kvs : List (String × Json)) (d' : Json)
    (t : Tweet) (h : Tweet.deserializer (.obj kvs) = .ok (d', t))
    (hq : lookupKey kvs "quoted_status" = none)
    (hr : lookupKey kvs "retweeted_status" = none)
    (hqi : lookupKey kvs "quoted_status_id" = none)
    (hps : lookupKey kvs "possibly_sensitive" = none)
    (hpb : ∀ ukvs, lookupKey kvs "user" = some (.obj ukvs) →
       lookupKey ukvs "profile_banner_url" = none) :
    t.quoted_status = none ∧ t.retweeted_status = none ∧
    t.quoted_status_id = .null ∧ t.possibly_sensitive = .null ∧
    t.user.profile_banner_url = .null ∧
    tweet_row t =
      [t.created_at, t.user.screen_name, t.full_text, .bool false, .null,
       .null, .null, .null] := by
  obtain ⟨a, qres, b, rres, ha, hqd, hb, hrd, hd, ht⟩ :=
    Tweet.deserializer_ok_inv h
  rw [hq, dopt_none] at hqd
  rw [hr, dopt_none] at hrd
  cases hqd
  cases hrd
  obtain ⟨hftv, hc1, hc2, hc3, hc4, hc5, hc6, ⟨uj, hu, hud⟩, hc7, hc8, hc9,
    hqsid⟩ := Tweet.deserializerA_ok_inv ha
  obtain ⟨hb1, hb2, hbE, hb3, hb4, hbps, hb5⟩ := Tweet.deserializerB_ok_inv hb
  obtain ⟨ukvs, huj, hupb⟩ := user_deserializer_ok_inv hud
  subst huj
  subst ht
  refine ⟨rfl, rfl, ?_, ?_, ?_, ?_⟩
  · show a.quoted_status_id = .null
    rw [hqsid, hqi]
    rfl
  · show b.possibly_sensitive = .null
    rw [hbps, hps]
    rfl
  · show a.user.profile_banner_url = .null
    rw [hupb, hpb ukvs hu]
    rfl
  · rfl

theorem c9_no_optionals_round_trip_witness :
    (baseTweet (.str "hello")).quoted_status = none ∧
    (baseTweet (.str "hello")).retweeted_status = none ∧
    (baseTweet (.str "hello")).quoted_status_id = .null ∧
    (baseTweet (.str "hello")).possibly_sensitive = .null ∧
    (baseTweet (.str "hello")).user.profile_banner_url = .null ∧
    tweet_row (baseTweet (.str "hello")) =
      [(baseTweet (.str "hello")).created_at,
       (baseTweet (.str "hello")).user.screen_name,
       (baseTweet (.str "hello")).full_text, .bool false, .null,
       .null, .null, .null] :=
  c9_no_optionals_round_trip baseTweetKvs c4_mutated (baseTweet (.str "hello"))
    deser_base rfl rfl rfl rfl
    (fun ukvs h => by
      rw [show lookupKey baseTweetKvs "user" = some (Json.obj baseUserKvs)
        from rfl] at h
      cases h
      rfl)

/-- C6: `get_quote` recurses into `retweeted_status` first when present,
otherwise inspects the post's own `quoted_status`, returns `(None, None)`
when no quote exists at any level, and on a plain reshare of a quote it
returns the original quoted author's handle and quoted text — whatever the
resharing post's own quote state. -/
theorem c6_get_quote_chain :
    (∀ t rt, t.retweeted_status = some rt → get_quote t = get_quote rt) ∧
    (∀ t, t.retweeted_status = none → t.quoted_status = none →
       get_quote t = (none, none)) ∧
    (∀ t q, t.retweeted_status = none → t.quoted_status = some q →
       get_quote t = (some q.user.screen_name, some q.full_text)) ∧
    (∀ t rt q, t.retweeted_status = some rt → rt.retweeted_status = none →
       rt.quoted_status = some q →
       get_quote t = (some q.user.screen_name, some q.full_text)) := by
  refine ⟨?_, ?_, ?_, ?_⟩
  · intro t rt h
    obtain ⟨d, qs, rts⟩ := t
    simp only [Tweet.retweeted_status] at h
    subst h
    simp [get_quote]
  · intro t h hq
    obtain ⟨d, qs, rts⟩ := t
    simp only [Tweet.retweeted_status] at h
    simp only [Tweet.quoted_status] at hq
    subst h
    subst hq
    simp [get_quote]
  · intro t q h hq
    obtain ⟨d, qs, rts⟩ := t
    simp only [Tweet.retweeted_status] at h
    simp only [Tweet.quoted_status] at hq
    subst h
    subst hq
    simp [get_quote]
  · intro t rt q h hrt hq
    obtain ⟨d, qs, rts⟩ := t
    simp only [Tweet.retweeted_status] at h
    subst h
    obtain ⟨d2, qs2, rts2⟩ := rt
    simp only [Tweet.retweeted_status] at hrt
    simp only [Tweet.quoted_status] at hq
    subst hrt
    subst hq
    simp [get_quote]

theorem c6_get_quote_chain_witness :
    get_quote sampleRetweetOfQuote =
      (some (Json.str "dave"), some (Json.str "plain")) :=
  c6_get_quote_chain.2.2.2 sampleRetweetOfQuote sampleQuote samplePlain
    rfl rfl rfl

/-- C8: `verify_authentication` is a total boolean function of the outcome
of the credential-check call: true exactly when the call returned a truthy
identity record, false on every failure (the bare `except:` catches any
exception). -/
theorem c8_verify_authentication :
    (∀ res : Except String Json,
       (verify_authentication res = true ↔
          ∃ v, res = .ok v ∧ v.truthy = true)) ∧
    (∀ e : String, verify_authentication (.error e) = false) := by
  constructor
  · intro res
    cases res with
    | error e => simp [verify_authentication]
    | ok v =>
      cases htv : v.truthy <;>
        simp [verify_authentication, htv]
  · intro e
    rfl

theorem c8_verify_authentication_witness :
    verify_authentication (.ok (.str "me")) = true :=
  (c8_verify_authentication.1 (.ok (.str "me"))).mpr ⟨.str "me", rfl, rfl⟩

/-- C10: the `is_quote` cell of a `tweets_to_df` row is either `True` —
exactly when the quote chain resolves to a truthy quoted author — or
`None`, never `False`; the `is_retweet` cell is always a real boolean. -/
theorem c10_is_quote_encoding : ∀ t : Tweet,
    ((tweet_row t).getD 5 .null = .bool true ∨
     (tweet_row t).getD 5 .null = .null) ∧
    ((tweet_row t).getD 5 .null = .bool true ↔
       ∃ v, (get_quote t).1 = some v ∧ v.truthy = true) ∧
    (tweet_row t).getD 3 .null = .bool t.retweeted_status.isSome := by
  intro t
  cases hgq : (get_quote t).1 with
  | none => simp [tweet_row, hgq]
  | some v => cases hv : v.truthy <;> simp [tweet_row, hgq, hv]

/-- C7: `pretty_print` picks exactly one of its four branches — reshare
without nested quote, reshare of a quote, direct quote, plain post — and
the rendered string of each branch is built from exactly the claimed
components. -/
theorem c7_pretty_print_branches :
    (∀ t : Tweet,
      ((∃ rt, t.retweeted_status = some rt ∧ rt.quoted_status = none) ∧
         ¬(∃ rt q, t.retweeted_status = some rt ∧ rt.quoted_status = some q) ∧
         ¬(t.retweeted_status = none ∧ ∃ q, t.quoted_status = some q) ∧
         ¬(t.retweeted_status = none ∧ t.quoted_status = none)) ∨
      (¬(∃ rt, t.retweeted_status = some rt ∧ rt.quoted_status = none) ∧
         (∃ rt q, t.retweeted_status = some rt ∧ rt.quoted_status = some q) ∧
         ¬(t.retweeted_status = none ∧ ∃ q, t.quoted_status = some q) ∧
         ¬(t.retweeted_status = none ∧ t.quoted_status = none)) ∨
      (¬(∃ rt, t.retweeted_status = some rt ∧ rt.quoted_status = none) ∧
         ¬(∃ rt q, t.retweeted_status = some rt ∧ rt.quoted_status = some q) ∧
         (t.retweeted_status = none ∧ ∃ q, t.quoted_status = some q) ∧
         ¬(t.retweeted_status = none ∧ t.quoted_status = none)) ∨
      (¬(∃ rt, t.retweeted_status = some rt ∧ rt.quoted_status = none) ∧
         ¬(∃ rt q, t.retweeted_status = some rt ∧ rt.quoted_status = some q) ∧
         ¬(t.retweeted_status = none ∧ ∃ q, t.quoted_status = some q) ∧
         (t.retweeted_status = none ∧ t.quoted_status = none))) ∧
    (∀ t rt, t.retweeted_status = some rt → rt.quoted_status = none →
       pretty_print t =
         "A new retweet\nsender: " ++ jstr t.user.screen_name ++
         "\nretweet from: " ++ jstr rt.user.screen_name ++
         "\ntext: " ++ jstr rt.full_text) ∧
    (∀ t rt q, t.retweeted_status = some rt → rt.quoted_status = some q →
       pretty_print t =
         "A new retweet\nsender: " ++ jstr t.user.screen_name ++
         "\nretweet from: " ++ jstr rt.user.screen_name ++
         "\nquoted from: " ++ jstr q.user.screen_name ++
         "\ntext: " ++ jstr rt.full_text ++
         "\norigin text: " ++ jstr q.full_text) ∧
    (∀ t q, t.retweeted_status = none → t.quoted_status = some q →
       pretty_print t =
         "A new quoted tweet\nsender: " ++ jstr t.user.screen_name ++
         "\nquoted from: " ++ jstr q.user.screen_name ++
         "\nquote text: " ++ jstr t.full_text ++
         "\norigin text: " ++ jstr q.full_text) ∧
    (∀ t, t.retweeted_status = none → t.quoted_status = none →
       pretty_print t =
         "A new tweet\nsender: " ++ jstr t.user.screen_name ++
         "\ntext: " ++ jstr t.full_text) := by
  refine ⟨?_, ?_, ?_, ?_, ?_⟩
  · intro t
    obtain ⟨d, qs, rts⟩ := t
    cases rts with
    | none =>
      cases qs with
      | none =>
        simp [Tweet.retweeted_status, Tweet.quoted_status]
      | some q =>
        simp [Tweet.retweeted_status, Tweet.quoted_status]
    | some rt =>
      obtain ⟨d2, qs2, rts2⟩ := rt
      cases qs2 with
      | none =>
        simp [Tweet.retweeted_status, Tweet.quoted_status]
      | some q2 =>
        simp [Tweet.retweeted_status, Tweet.quoted_status]
  · intro t rt h hq
    obtain ⟨d, qs, rts⟩ := t
    simp only [Tweet.retweeted_status] at h
    subst h
    simp [pretty_print, Tweet.retweeted_status, hq]
  · intro t rt q h hq
    obtain ⟨d, qs, rts⟩ := t
    simp only [Tweet.retweeted_status] at h
    subst h
    simp [pretty_print, Tweet.retweeted_status, hq]
  · intro t q h hq
    obtain ⟨d, qs, rts⟩ := t
    simp only [Tweet.retweeted_status] at h
    simp only [Tweet.quoted_status] at hq
    subst h
    subst hq
    simp [pretty_print, Tweet.retweeted_status, Tweet.quoted_status]
  · intro t h hq
    obtain ⟨d, qs, rts⟩ := t
    simp only [Tweet.retweeted_status] at h
    simp only [Tweet.quoted_status] at hq
    subst h
    subst hq
    simp [pretty_print, Tweet.retweeted_status, Tweet.quoted_status]

theorem c7_pretty_print_branches_witness :
    pretty_print sampleRetweetOfQuote =
      "A new retweet\nsender: " ++ jstr sampleRetweetOfQuote.user.screen_name ++
      "\nretweet from: " ++ jstr sampleQuote.user.screen_name ++
      "\nquoted from: " ++ jstr samplePlain.user.screen_name ++
      "\ntext: " ++ jstr sampleQuote.full_text ++
      "\norigin text: " ++ jstr samplePlain.full_text :=
  c7_pretty_print_branches.2.2.1 sampleRetweetOfQuote sampleQuote samplePlain
    rfl rfl

set_option maxRecDepth 10000 in
/-- C2: every fetch call of the collection loop requests
`min(MAX_COUNT, remaining)`; the loop makes no call once the requested
total is satisfied (`cnt = 0`) and stops right after a page comes back
empty; in the 450-request scenario with pages of 200, 200 and 50 items it
makes exactly the 3 calls with counts 200, 200, 50, and with an empty
second page it stops after 2 calls instead of the arithmetically expected
3. -/
theorem c2_collect_pagination :
    (∀ (method : Int → Option Int → List Status) (fuel : Nat) (cnt : Int)
       (oldest : Option Int),
       traceCounts (collectAux method fuel cnt oldest) cnt) ∧
    (∀ (method : Int → Option Int → List Status) (fuel : Nat)
       (oldest : Option Int), collectAux method fuel 0 oldest = []) ∧
    (∀ (method : Int → Option Int → List Status) (fuel : Nat) (cnt : Int)
       (oldest : Option Int), cnt ≠ 0 →
       method (min MAX_COUNT cnt) (oldest.map (fun x => x - 1)) = [] →
       collectAux method (fuel + 1) cnt oldest =
         [(⟨min MAX_COUNT cnt, oldest.map (fun x => x - 1)⟩, [])]) ∧
    ((collectAux c2method 10 450 none).map (fun e => e.1.count) =
       [200, 200, 50]) ∧
    (collectAux c2methodEarly 10 450 none).length = 2 := by
  refine ⟨?_, ?_, ?_, ?_, ?_⟩
  · intro method fuel
    induction fuel with
    | zero =>
      intro cnt oldest
      simp [collectAux, traceCounts]
    | succ n ih =>
      intro cnt oldest
      by_cases h : cnt = 0
      · simp [collectAux, h, traceCounts]
      · rw [collectAux, if_neg h]
        cases hm : method (min MAX_COUNT cnt) (oldest.map (fun x => x - 1)) with
        | nil => simp [traceCounts]
        | cons p ps => exact ⟨rfl, ih _ _⟩
  · intro method fuel oldest
    cases fuel <;> simp [collectAux]
  · intro method fuel cnt oldest h hm
    rw [collectAux, if_neg h]
    simp only [hm]
  · rfl
  · rfl

theorem c2_collect_pagination_witness :
    collectAux c2methodEarly 6 250 (some 801) =
      [(⟨200, some 800⟩, [])] :=
  c2_collect_pagination.2.2.1 c2methodEarly 5 250 (some 801)
    (by decide) rfl

/-- Cursor invariant of the collection loop, generalized over the starting
cursor: the first recorded call passes `oldest - 1` (nothing when no oldest
id exists yet) and each later call passes the previous page's last item id
minus one. -/
theorem collectAux_cursor_chain (method : Int → Option Int → List Status) :
    ∀ (fuel : Nat) (cnt : Int) (oldest : Option Int),
    (∀ c p rest, collectAux method fuel cnt oldest = (c, p) :: rest →
       c.max_id = oldest.map (fun x => x - 1)) ∧
    List.Chain' (fun a b => b.1.max_id = some (lastIdL a.2 - 1))
      (collectAux method fuel cnt oldest) := by
  intro fuel
  induction fuel with
  | zero =>
    intro cnt oldest
    constructor
    · intro c p rest h
      simp [collectAux] at h
    · simp [collectAux]
  | succ n ih =>
    intro cnt oldest
    by_cases h : cnt = 0
    · constructor
      · intro c p rest hh
        rw [collectAux, if_pos h] at hh
        exact List.noConfusion hh
      · rw [collectAux, if_pos h]
        exact List.chain'_nil
    · constructor
      · intro c p rest hh
        rw [collectAux, if_neg h] at hh
        cases hm : method (min MAX_COUNT cnt) (oldest.map (fun x => x - 1)) with
        | nil =>
          rw [hm] at hh
          cases hh
          rfl
        | cons q qs =>
          rw [hm] at hh
          cases hh
          rfl
      · rw [collectAux, if_neg h]
        cases hm : method (min MAX_COUNT cnt) (oldest.map (fun x => x - 1)) with
        | nil => simp
        | cons q qs =>
          rw [List.chain'_cons']
          constructor
          · intro b hb
            cases hc : collectAux method n (cnt - (q :: qs).length)
                (some (lastId q qs)) with
            | nil => rw [hc] at hb; simp at hb
            | cons e rest =>
              rw [hc] at hb
              simp only [List.head?] at hb
              cases hb
              obtain ⟨e1, e2⟩ := b
              have := (ih (cnt - (q :: qs).length) (some (lastId q qs))).1
                e1 e2 rest hc
              simpa [lastIdL] using this
          · exact (ih _ _).2

/-- C3: in every run of the collection loop the first fetch call passes no
upper-bound cursor, and every later call passes the id of the last item of
the previous page minus one as `max_id`. -/
theorem c3_cursor_backward_pagination
    (method : Int → Option Int → List Status) (fuel : Nat) (cnt : Int) :
    (∀ c p rest, collectAux method fuel cnt none = (c, p) :: rest →
       c.max_id = none) ∧
    List.Chain' (fun a b => b.1.max_id = some (lastIdL a.2 - 1))
      (collectAux method fuel cnt none) := by
  obtain ⟨h1, h2⟩ := collectAux_cursor_chain method fuel cnt none
  exact ⟨fun c p rest h => by simpa using h1 c p rest h, h2⟩

set_option maxRecDepth 10000 in
theorem c3_cursor_backward_pagination_witness :
    FetchCall.max_id ⟨200, none⟩ = none ∧
    List.Chain' (fun a b => b.1.max_id = some (lastIdL a.2 - 1))
      (collectAux c2method 10 450 none) := by
  obtain ⟨h1, h2⟩ := c3_cursor_backward_pagination c2method 10 450
  refine ⟨?_, h2⟩
  exact h1 ⟨200, none⟩ (List.replicate 200 ⟨801⟩)
    [(⟨200, some 800⟩, List.replicate 200 ⟨601⟩),
     (⟨50, some 600⟩, List.replicate 50 ⟨551⟩)] rfl

theorem getK_err_name {kvs : List (String × Json)} {k : String} {e : DeserErr}
    (h : getK kvs k = .error e) :
    e = .missingField k ∧ lookupKey kvs k = none :=
  getK_err_iff.mp h

theorem asElems_ok_arr {j : Json} {xs : List Json} (h : asElems j = .ok xs) :
    j = .arr xs := by
  cases j <;> simp [asElems] at h
  rw [h]

theorem asElems_err_not_arr {j : Json} {e : DeserErr}
    (h : asElems j = .error e) : j.isArr = false := by
  cases j <;> simp [asElems, Json.isArr] at h ⊢

theorem mapM_loop_err {α : Type} {f : Json → Except DeserErr α}
    {xs : List Json} {acc : List α} {e : DeserErr}
    (h : List.mapM.loop f xs acc = .error e) :
    ∃ x ∈ xs, f x = .error e := by
  induction xs generalizing acc with
  | nil => simp [List.mapM.loop, expure] at h
  | cons x rest ih =>
    rw [List.mapM.loop] at h
    rw [bind_err_iff] at h
    rcases h with h | ⟨a, ha, h⟩
    · exact ⟨x, by simp, h⟩
    · obtain ⟨y, hy, hfy⟩ := ih h
      exact ⟨y, by simp [hy], hfy⟩

theorem mapM_err {α : Type} {f : Json → Except DeserErr α} {xs : List Json}
    {e : DeserErr} (h : xs.mapM f = .error e) :
    ∃ x ∈ xs, f x = .error e :=
  mapM_loop_err h

theorem wtIndexed_obj {j : Json} (h : wtIndexed j = true) :
    ∃ kvs, j = .obj kvs ∧
      ∀ v, lookupKey kvs "indices" = some v → v.isArr = true := by
  cases j <;> simp [wtIndexed] at h
  case obj kvs =>
    refine ⟨kvs, rfl, ?_⟩
    intro v hv
    rw [hv] at h
    simpa using h

theorem hashtag_deserializer_err {j : Json} {e : DeserErr}
    (hwt : wtIndexed j = true) (h : Hashtag.deserializer j = .error e) :
    ∃ k, e = .missingField k := by
  obtain ⟨kvs, rfl, hidx⟩ := wtIndexed_obj hwt
  simp only [Hashtag.deserializer, bind_err_iff, expure, ok_eq_err_iff,
    and_false, exists_false, or_false] at h
  rcases h with h | ⟨idx, hi, h⟩
  · exact ⟨_, (getK_err_name h).1⟩
  rcases h with h | ⟨_, _, h⟩
  · have := asElems_err_not_arr h
    rw [hidx idx (getK_ok_iff.mp hi)] at this
    exact Bool.noConfusion this
  · exact ⟨_, (getK_err_name h).1⟩

theorem url_deserializer_err {j : Json} {e : DeserErr}
    (hwt : wtIndexed j = true) (h : Url.deserializer j = .error e) :
    ∃ k, e = .missingField k := by
  obtain ⟨kvs, rfl, hidx⟩ := wtIndexed_obj hwt
  simp only [Url.deserializer, bind_err_iff, expure, ok_eq_err_iff,
    and_false, exists_false, or_false] at h
  rcases h with h | ⟨_, _, h⟩
  · exact ⟨_, (getK_err_name h).1⟩
  rcases h with h | ⟨_, _, h⟩
  · exact ⟨_, (getK_err_name h).1⟩
  rcases h with h | ⟨idx, hi, h⟩
  · exact ⟨_, (getK_err_name h).1⟩
  rcases h with h | ⟨_, _, h⟩
  · have := asElems_err_not_arr h
    rw [hidx idx (getK_ok_iff.mp hi)] at this
    exact Bool.noConfusion this
  · exact ⟨_, (getK_err_name h).1⟩

theorem mention_deserializer_err {j : Json} {e : DeserErr}
    (hwt : wtIndexed j = true) (h : UserMention.deserializer j = .error e) :
    ∃ k, e = .missingField k := by
  obtain ⟨kvs, rfl, hidx⟩ := wtIndexed_obj hwt
  simp only [UserMention.deserializer, bind_err_iff, expure, ok_eq_err_iff,
    and_false, exists_false, or_false] at h
  rcases h with h | ⟨_, _, h⟩
  · exact ⟨_, (getK_err_name h).1⟩
  rcases h with h | ⟨idx, hi, h⟩
  · exact ⟨_, (getK_err_name h).1⟩
  rcases h with h | ⟨_, _, h⟩
  · have := asElems_err_not_arr h
    rw [hidx idx (getK_ok_iff.mp hi)] at this
    exact Bool.noConfusion this
  rcases h with h | ⟨_, _, h⟩
  · exact ⟨_, (getK_err_name h).1⟩
  · exact ⟨_, (getK_err_name h).1⟩

theorem symbol_deserializer_err {j : Json} {e : DeserErr}
    (hwt : wtIndexed j = true) (h : TweetSymbol.deserializer j = .error e) :
    ∃ k, e = .missingField k := by
  obtain ⟨kvs, rfl, hidx⟩ := wtIndexed_obj hwt
  simp only [TweetSymbol.deserializer, bind_err_iff, expure, ok_eq_err_iff,
    and_false, exists_false, or_false] at h
  rcases h with h | ⟨idx, hi, h⟩
  · exact ⟨_, (getK_err_name h).1⟩
  rcases h with h | ⟨_, _, h⟩
  · have := asElems_err_not_arr h
    rw [hidx idx (getK_ok_iff.mp hi)] at this
    exact Bool.noConfusion this
  · exact ⟨_, (getK_err_name h).1⟩

theorem wtEntityList_all {v : Json} (h : wtEntityList v = true) :
    ∃ xs, v = .arr xs ∧ ∀ x ∈ xs, wtIndexed x = true := by
  cases v <;> simp [wtEntityList] at h
  case arr xs =>
    refine ⟨xs, rfl, ?_⟩
    simpa [List.all_eq_true] using h

theorem wtEntityList_arr {v : Json} (h : wtEntityList v = true) :
    v.isArr = true := by
  obtain ⟨xs, rfl, _⟩ := wtEntityList_all h
  rfl

theorem wtEntities_obj {j : Json} (h : wtEntities j = true) :
    ∃ kvs, j = .obj kvs ∧
      (∀ v, lookupKey kvs "hashtags" = some v → wtEntityList v = true) ∧
      (∀ v, lookupKey kvs "urls" = some v → wtEntityList v = true) ∧
      (∀ v, lookupKey kvs "user_mentions" = some v → wtEntityList v = true) ∧
      (∀ v, lookupKey kvs "symbols" = some v → wtEntityList v = true) := by
  cases j <;> simp only [wtEntities] at h
  case obj kvs =>
    simp only [Bool.and_eq_true] at h
    obtain ⟨⟨⟨h1, h2⟩, h3⟩, h4⟩ := h
    refine ⟨kvs, rfl, ?_, ?_, ?_, ?_⟩ <;> intro v hv
    · rw [hv] at h1
      exact h1
    · rw [hv] at h2
      exact h2
    · rw [hv] at h3
      exact h3
    · rw [hv] at h4
      exact h4
  all_goals exact Bool.noConfusion h

theorem entities_deserializer_err {j : Json} {e : DeserErr}
    (hwt : wtEntities j = true) (h : Entities.deserializer j = .error e) :
    ∃ k, e = .missingField k := by
  obtain ⟨kvs, rfl, hw1, hw2, hw3, hw4⟩ := wtEntities_obj hwt
  simp only [Entities.deserializer, bind_err_iff, expure, ok_eq_err_iff,
    and_false, exists_false, or_false] at h
  rcases h with h | ⟨hj, hhj, h⟩
  · exact ⟨_, (getK_err_name h).1⟩
  rcases h with h | ⟨hl, hhl, h⟩
  · have := asElems_err_not_arr h
    rw [wtEntityList_arr (hw1 hj (getK_ok_iff.mp hhj))] at this
    exact Bool.noConfusion this
  rcases h with h | ⟨_, _, h⟩
  · obtain ⟨xs, hxs, hall⟩ := wtEntityList_all (hw1 hj (getK_ok_iff.mp hhj))
    rw [hxs] at hhl
    cases asElems_ok_arr hhl
    obtain ⟨x, hx, hfx⟩ := mapM_err h
    exact hashtag_deserializer_err (hall x hx) hfx
  rcases h with h | ⟨uj, huj, h⟩
  · exact ⟨_, (getK_err_name h).1⟩
  rcases h with h | ⟨ul, hul, h⟩
  · have := asElems_err_not_arr h
    rw [wtEntityList_arr (hw2 uj (getK_ok_iff.mp huj))] at this
    exact Bool.noConfusion this
  rcases h with h | ⟨_, _, h⟩
  · obtain ⟨xs, hxs, hall⟩ := wtEntityList_all (hw2 uj (getK_ok_iff.mp huj))
    rw [hxs] at hul
    cases asElems_ok_arr hul
    obtain ⟨x, hx, hfx⟩ := mapM_err h
    exact url_deserializer_err (hall x hx) hfx
  rcases h with h | ⟨mj, hmj, h⟩
  · exact ⟨_, (getK_err_name h).1⟩
  rcases h with h | ⟨ml, hml, h⟩
  · have := asElems_err_not_arr h
    rw [wtEntityList_arr (hw3 mj (getK_ok_iff.mp hmj))] at this
    exact Bool.noConfusion this
  rcases h with h | ⟨_, _, h⟩
  · obtain ⟨xs, hxs, hall⟩ := wtEntityList_all (hw3 mj (getK_ok_iff.mp hmj))
    rw [hxs] at hml
    cases asElems_ok_arr hml
    obtain ⟨x, hx, hfx⟩ := mapM_err h
    exact mention_deserializer_err (hall x hx) hfx
  rcases h with h | ⟨sj, hsj, h⟩
  · exact ⟨_, (getK_err_name h).1⟩
  rcases h with h | ⟨sl, hsl, h⟩
  · have := asElems_err_not_arr h
    rw [wtEntityList_arr (hw4 sj (getK_ok_iff.mp hsj))] at this
    exact Bool.noConfusion this
  · obtain ⟨xs, hxs, hall⟩ := wtEntityList_all (hw4 sj (getK_ok_iff.mp hsj))
    rw [hxs] at hsl
    cases asElems_ok_arr hsl
    obtain ⟨x, hx, hfx⟩ := mapM_err h
    exact symbol_deserializer_err (hall x hx) hfx

theorem user_deserializer_err {ukvs : List (String × Json)} {e : DeserErr}
    (h : TweetUser.deserializer (.obj ukvs) = .error e) :
    ∃ k, e = .missingField k ∧ lookupKey ukvs k = none ∧
      k ∈ userRequiredKeys := by
  simp only [TweetUser.deserializer, bind_err_iff, expure, ok_eq_err_iff,
    and_false, exists_false, or_false] at h
  rcases h with h | ⟨_, _, h⟩
  · obtain ⟨he, hn⟩ := getK_err_name h
    exact ⟨"id", he, hn, by simp [userRequiredKeys]⟩
  rcases h with h | ⟨_, _, h⟩
  · obtain ⟨he, hn⟩ := getK_err_name h
    exact ⟨"name", he, hn, by simp [userRequiredKeys]⟩
  rcases h with h | ⟨_, _, h⟩
  · obtain ⟨he, hn⟩ := getK_err_name h
    exact ⟨"screen_name", he, hn, by simp [userRequiredKeys]⟩
  rcases h with h | ⟨_, _, h⟩
  · obtain ⟨he, hn⟩ := getK_err_name h
    exact ⟨"location", he, hn, by simp [userRequiredKeys]⟩
  rcases h with h | ⟨_, _, h⟩
  · obtain ⟨he, hn⟩ := getK_err_name h
    exact ⟨"url", he, hn, by simp [userRequiredKeys]⟩
  rcases h with h | ⟨_, _, h⟩
  · obtain ⟨he, hn⟩ := getK_err_name h
    exact ⟨"description", he, hn, by simp [userRequiredKeys]⟩
  rcases h with h | ⟨_, _, h⟩
  · obtain ⟨he, hn⟩ := getK_err_name h
    exact ⟨"protected", he, hn, by simp [userRequiredKeys]⟩
  rcases h with h | ⟨_, _, h⟩
  · obtain ⟨he, hn⟩ := getK_err_name h
    exact ⟨"verified", he, hn, by simp [userRequiredKeys]⟩
  rcases h with h | ⟨_, _, h⟩
  · obtain ⟨he, hn⟩ := getK_err_name h
    exact ⟨"followers_count", he, hn, by simp [userRequiredKeys]⟩
  rcases h with h | ⟨_, _, h⟩
  · obtain ⟨he, hn⟩ := getK_err_name h
    exact ⟨"friends_count", he, hn, by simp [userRequiredKeys]⟩
  rcases h with h | ⟨_, _, h⟩
  · obtain ⟨he, hn⟩ := getK_err_name h
    exact ⟨"listed_count", he, hn, by simp [userRequiredKeys]⟩
  rcases h with h | ⟨_, _, h⟩
  · obtain ⟨he, hn⟩ := getK_err_name h
    exact ⟨"favourites_count", he, hn, by simp [userRequiredKeys]⟩
  rcases h with h | ⟨_, _, h⟩
  · obtain ⟨he, hn⟩ := getK_err_name h
    exact ⟨"statuses_count", he, hn, by simp [userRequiredKeys]⟩
  rcases h with h | ⟨_, _, h⟩
  · obtain ⟨he, hn⟩ := getK_err_name h
    exact ⟨"created_at", he, hn, by simp [userRequiredKeys]⟩
  rcases h with h | ⟨_, _, h⟩
  · obtain ⟨he, hn⟩ := getK_err_name h
    exact ⟨"profile_image_url_https", he, hn, by simp [userRequiredKeys]⟩
  rcases h with h | ⟨_, _, h⟩
  · obtain ⟨he, hn⟩ := getK_err_name h
    exact ⟨"default_profile", he, hn, by simp [userRequiredKeys]⟩
  rcases h with h | ⟨_, _, h⟩
  · obtain ⟨he, hn⟩ := getK_err_name h
    exact ⟨"default_profile_image", he, hn, by simp [userRequiredKeys]⟩
  · obtain ⟨he, hn⟩ := getK_err_name h
    exact ⟨"withheld_in_countries", he, hn, by simp [userRequiredKeys]⟩

theorem wellTypedTweet_isObj {j : Json} (h : wellTypedTweet j = true) :
    ∃ kvs, j = .obj kvs := by
  cases j <;> simp [wellTypedTweet] at h
  case obj kvs => exact ⟨kvs, rfl⟩

/-- Unfolding of `wellTypedTweet` on a dictionary payload. -/
theorem wellTypedTweet_obj {kvs : List (String × Json)}
    (h : wellTypedTweet (.obj kvs) = true) :
    (∀ v, lookupKey kvs "extended_tweet" = some v → v.isObj = true) ∧
    (∀ v, lookupKey kvs "user" = some v → v.isObj = true) ∧
    (∀ v, lookupKey kvs "entities" = some v → wtEntities v = true) ∧
    (∀ q, lookupKey kvs "quoted_status" = some q → wellTypedTweet q = true) ∧
    (∀ r, lookupKey kvs "retweeted_status" = some r →
       wellTypedTweet r = true) := by
  simp only [wellTypedTweet, Bool.and_eq_true] at h
  obtain ⟨⟨⟨⟨h1, h2⟩, h3⟩, h4⟩, h5⟩ := h
  refine ⟨?_, ?_, ?_, ?_, ?_⟩
  · intro v hv
    rw [hv] at h1
    exact h1
  · intro v hv
    rw [hv] at h2
    exact h2
  · intro v hv
    rw [hv] at h3
    exact h3
  · intro q hq
    split at h4
    · rename_i q2 heq
      rw [hq] at heq
      cases heq
      exact h4
    · rename_i heq
      rw [hq] at heq
      cases heq
  · intro r hr
    split at h5
    · rename_i r2 heq
      rw [hr] at heq
      cases heq
      exact h5
    · rename_i heq
      rw [hr] at heq
      cases heq

theorem fullTextResolve_err {kvs : List (String × Json)} {e : DeserErr}
    (hext : ∀ v, lookupKey kvs "extended_tweet" = some v → v.isObj = true)
    (hrs : ∀ r, lookupKey kvs "retweeted_status" = some r →
       wellTypedTweet r = true)
    (h : fullTextResolve kvs = .error e) : ∃ k, e = .missingField k := by
  unfold fullTextResolve at h
  split at h
  · exact Except.noConfusion h
  split at h
  · cases h
    exact ⟨"truncated", rfl⟩
  rename_i tv htr
  split at h
  · rename_i et hif
    have het : lookupKey kvs "extended_tweet" = some et := by
      cases htv : tv.truthy with
      | true =>
        rw [htv, if_pos rfl] at hif
        exact hif
      | false =>
        rw [if_neg (by simp [htv])] at hif
        exact Option.noConfusion hif
    have hobj := hext et het
    cases et <;> simp [Json.isObj] at hobj
    case obj ekvs =>
      simp only [getReq] at h
      exact ⟨_, (getK_err_name h).1⟩
  split at h
  · exact ⟨_, (getK_err_name h).1⟩
  rename_i rs hrsl
  split at h
  · rename_i rkvs
    split at h
    · rename_i et2 hek
      obtain ⟨hre, _, _, _, _⟩ := wellTypedTweet_obj (hrs _ hrsl)
      have hobj := hre et2 hek
      cases et2 <;> simp [Json.isObj] at hobj
      case obj e2kvs =>
        simp only [getReq] at h
        exact ⟨_, (getK_err_name h).1⟩
    · exact ⟨_, (getK_err_name h).1⟩
  · rename_i hno
    obtain ⟨rkvs, hrk⟩ := wellTypedTweet_isObj (hrs _ hrsl)
    subst hrk
    exact (hno rkvs rfl).elim

theorem Tweet.deserializerA_err {kvs : List (String × Json)} {e : DeserErr}
    (hwt : wellTypedTweet (.obj kvs) = true)
    (h : Tweet.deserializerA kvs = .error e) : ∃ k, e = .missingField k := by
  obtain ⟨hext, huser, hent, hq, hrs⟩ := wellTypedTweet_obj hwt
  simp only [Tweet.deserializerA, bind_err_iff, expure, ok_eq_err_iff,
    and_false, exists_false, or_false] at h
  rcases h with h | ⟨_, _, h⟩
  · exact fullTextResolve_err hext hrs h
  rcases h with h | ⟨_, _, h⟩
  · exact ⟨_, (getK_err_name h).1⟩
  rcases h with h | ⟨_, _, h⟩
  · exact ⟨_, (getK_err_name h).1⟩
  rcases h with h | ⟨_, _, h⟩
  · exact ⟨_, (getK_err_name h).1⟩
  rcases h with h | ⟨_, _, h⟩
  · exact ⟨_, (getK_err_name h).1⟩
  rcases h with h | ⟨_, _, h⟩
  · exact ⟨_, (getK_err_name h).1⟩
  rcases h with h | ⟨_, _, h⟩
  · exact ⟨_, (getK_err_name h).1⟩
  rcases h with h | ⟨uj, huj, h⟩
  · exact ⟨_, (getK_err_name h).1⟩
  rcases h with h | ⟨_, _, h⟩
  · have hobj := huser uj (getK_ok_iff.mp huj)
    cases uj <;> simp [Json.isObj] at hobj
    case obj ukvs =>
      obtain ⟨k, he, _, _⟩ := user_deserializer_err h
      exact ⟨k, he⟩
  rcases h with h | ⟨_, _, h⟩
  · exact ⟨_, (getK_err_name h).1⟩
  rcases h with h | ⟨_, _, h⟩
  · exact ⟨_, (getK_err_name h).1⟩
  · exact ⟨_, (getK_err_name h).1⟩

theorem Tweet.deserializerB_err {kvs : List (String × Json)} {e : DeserErr}
    (hwt : wellTypedTweet (.obj kvs) = true)
    (h : Tweet.deserializerB kvs = .error e) : ∃ k, e = .missingField k := by
  obtain ⟨hext, huser, hent, hq, hrs⟩ := wellTypedTweet_obj hwt
  simp only [Tweet.deserializerB, bind_err_iff, expure, ok_eq_err_iff,
    and_false, exists_false, or_false] at h
  rcases h with h | ⟨_, _, h⟩
  · exact ⟨_, (getK_err_name h).1⟩
  rcases h with h | ⟨_, _, h⟩
  · exact ⟨_, (getK_err_name h).1⟩
  rcases h with h | ⟨ej, hej, h⟩
  · exact ⟨_, (getK_err_name h).1⟩
  rcases h with h | ⟨_, _, h⟩
  · exact entities_deserializer_err (hent ej (getK_ok_iff.mp hej)) h
  rcases h with h | ⟨_, _, h⟩
  · exact ⟨_, (getK_err_name h).1⟩
  rcases h with h | ⟨_, _, h⟩
  · exact ⟨_, (getK_err_name h).1⟩
  · exact ⟨_, (getK_err_name h).1⟩

/-- Fuel-indexed induction core: on a well-typed payload every failure of
`Tweet.deserializer` is a `missingField` error. -/
theorem deser_err_aux : ∀ (n : Nat) (j : Json), sizeOf j ≤ n →
    wellTypedTweet j = true → ∀ e, Tweet.deserializer j = .error e →
    ∃ k, e = .missingField k := by
  intro n
  induction n with
  | zero =>
    intro j hj
    cases j <;> simp at hj
  | succ n ih =>
    intro j hj hwt e h
    obtain ⟨kvs, rfl⟩ := wellTypedTweet_isObj hwt
    obtain ⟨hext, huser, hent, hq, hrs⟩ := wellTypedTweet_obj hwt
    rcases Tweet.deserializer_err_inv h with
      hA | ⟨qv, hlq, hqe⟩ | hB | ⟨rv, hlr, hre⟩
    · exact Tweet.deserializerA_err hwt hA
    · have hle : sizeOf qv ≤ n := by
        have := lookup_some_sizeOf hlq
        simp at this hj
        omega
      exact ih qv hle (hq qv hlq) e hqe
    · exact Tweet.deserializerB_err hwt hB
    · have hle : sizeOf rv ≤ n := by
        have := lookup_some_sizeOf hlr
        simp at this hj
        omega
      exact ih rv hle (hrs rv hlr) e hre

theorem TweetUser.deserializer_ok_of_required {ukvs : List (String × Json)}
    (hreq : ∀ k ∈ userRequiredKeys, (lookupKey ukvs k).isSome = true) :
    ∃ u, TweetUser.deserializer (.obj ukvs) = .ok u ∧
      (lookupKey ukvs "profile_banner_url" = none →
        u.profile_banner_url = .null) := by
  obtain ⟨v1, hv1⟩ := Option.isSome_iff_exists.mp
    (hreq "id" (by simp [userRequiredKeys]))
  obtain ⟨v2, hv2⟩ := Option.isSome_iff_exists.mp
    (hreq "name" (by simp [userRequiredKeys]))
  obtain ⟨v3, hv3⟩ := Option.isSome_iff_exists.mp
    (hreq "screen_name" (by simp [userRequiredKeys]))
  obtain ⟨v4, hv4⟩ := Option.isSome_iff_exists.mp
    (hreq "location" (by simp [userRequiredKeys]))
  obtain ⟨v5, hv5⟩ := Option.isSome_iff_exists.mp
    (hreq "url" (by simp [userRequiredKeys]))
  obtain ⟨v6, hv6⟩ := Option.isSome_iff_exists.mp
    (hreq "description" (by simp [userRequiredKeys]))
  obtain ⟨v7, hv7⟩ := Option.isSome_iff_exists.mp
    (hreq "protected" (by simp [userRequiredKeys]))
  obtain ⟨v8, hv8⟩ := Option.isSome_iff_exists.mp
    (hreq "verified" (by simp [userRequiredKeys]))
  obtain ⟨v9, hv9⟩ := Option.isSome_iff_exists.mp
    (hreq "followers_count" (by simp [userRequiredKeys]))
  obtain ⟨v10, hv10⟩ := Option.isSome_iff_exists.mp
    (hreq "friends_count" (by simp [userRequiredKeys]))
  obtain ⟨v11, hv11⟩ := Option.isSome_iff_exists.mp
    (hreq "listed_count" (by simp [userRequiredKeys]))
  obtain ⟨v12, hv12⟩ := Option.isSome_iff_exists.mp
    (hreq "favourites_count" (by simp [userRequiredKeys]))
  obtain ⟨v13, hv13⟩ := Option.isSome_iff_exists.mp
    (hreq "statuses_count" (by simp [userRequiredKeys]))
  obtain ⟨v14, hv14⟩ := Option.isSome_iff_exists.mp
    (hreq "created_at" (by simp [userRequiredKeys]))
  obtain ⟨v15, hv15⟩ := Option.isSome_iff_exists.mp
    (hreq "profile_image_url_https" (by simp [userRequiredKeys]))
  obtain ⟨v16, hv16⟩ := Option.isSome_iff_exists.mp
    (hreq "default_profile" (by simp [userRequiredKeys]))
  obtain ⟨v17, hv17⟩ := Option.isSome_iff_exists.mp
    (hreq "default_profile_image" (by simp [userRequiredKeys]))
  obtain ⟨v18, hv18⟩ := Option.isSome_iff_exists.mp
    (hreq "withheld_in_countries" (by simp [userRequiredKeys]))
  refine ⟨{ id := v1, name := v2, screen_name := v3, location := v4,
            url := v5, description := v6, protected_ := v7, verified := v8,
            followers_count := v9, friends_count := v10, listed_count := v11,
            favourites_count := v12, statuses_count := v13, created_at := v14,
            profile_banner_url :=
              (lookupKey ukvs "profile_banner_url").getD .null,
            profile_image_url_https := v15, default_profile := v16,
            default_profile_image := v17, withheld_in_countries := v18 },
          ?_, ?_⟩
  · simp only [TweetUser.deserializer, getK, hv1, hv2, hv3, hv4, hv5, hv6,
      hv7, hv8, hv9, hv10, hv11, hv12, hv13, hv14, hv15, hv16, hv17, hv18,
      exbind_ok, expure]
  · intro hpb
    simp [hpb]

/-- C5: on well-typed payloads deserialization fails with a `MissingField`
error exactly when a required key is absent — every failure of
`Tweet.deserializer` is a `missingField`, every `TweetUser.deserializer`
failure names an absent required key, a user payload with all required keys
present deserializes (with the optional `profile_banner_url` defaulting to
null rather than failing), and the recursion into `quoted_status` /
`retweeted_status` happens exactly when those keys are present, whose
absence is not an error. -/
theorem c5_missing_field_errors :
    (∀ (kvs : List (String × Json)) (e : DeserErr),
       wellTypedTweet (.obj kvs) = true →
       Tweet.deserializer (.obj kvs) = .error e →
       ∃ k, e = .missingField k) ∧
    (∀ (ukvs : List (String × Json)) (e : DeserErr),
       TweetUser.deserializer (.obj ukvs) = .error e →
       ∃ k, e = .missingField k ∧ lookupKey ukvs k = none ∧
         k ∈ userRequiredKeys) ∧
    (∀ ukvs : List (String × Json),
       (∀ k ∈ userRequiredKeys, (lookupKey ukvs k).isSome = true) →
       ∃ u, TweetUser.deserializer (.obj ukvs) = .ok u ∧
         (lookupKey ukvs "profile_banner_url" = none →
           u.profile_banner_url = .null)) ∧
    (∀ (kvs : List (String × Json)) (d' : Json) (t : Tweet),
       Tweet.deserializer (.obj kvs) = .ok (d', t) →
       t.quoted_status.isSome = (lookupKey kvs "quoted_status").isSome ∧
       t.retweeted_status.isSome =
         (lookupKey kvs "retweeted_status").isSome) := by
  refine ⟨?_, ?_, ?_, ?_⟩
  · intro kvs e hwt h
    exact deser_err_aux (sizeOf (Json.obj kvs)) _ le_rfl hwt e h
  · intro ukvs e h
    exact user_deserializer_err h
  · intro ukvs h
    exact TweetUser.deserializer_ok_of_required h
  · intro kvs d' t h
    obtain ⟨a, qres, b, rres, _, hqd, _, hrd, _, ht⟩ :=
      Tweet.deserializer_ok_inv h
    subst ht
    constructor
    · show (qres.map Prod.snd).isSome = _
      rw [← dopt_ok_isSome hqd]
      cases qres <;> rfl
    · show (rres.map Prod.snd).isSome = _
      rw [← dopt_ok_isSome hrd]
      cases rres <;> rfl

theorem c5_missing_field_errors_witness :
    ∃ k, DeserErr.missingField "created_at" = DeserErr.missingField k :=
  c5_missing_field_errors.1 c5badKvs (.missingField "created_at")
    (by simp only [wellTypedTweet]; rfl)
    (by simp only [Tweet.deserializer]; rfl)
